import Mathlib

/-!
# Contribution dashboard client (`src/script.js`)

A shallow embedding of the browser script and the properties of its
specification.

Modelling conventions.

* A JavaScript `Date` is held as its *local* time value: the number of
  milliseconds since 1970-01-01T00:00 local time, an `Int`.  The local zone is
  taken to have a constant offset from UTC over the days concerned, so that
  comparing two dates by their time values and comparing them by their local
  time values agree.  The calendar functions are those of ECMA-262 21.4.1.
  Where the local clock jumps (daylight saving), `setDate` no longer moves a
  date by whole days; the general statements about whole windows below are
  about days without such a jump.
* JavaScript strings are Lean strings; the default `Array.prototype.sort`
  order is the lexicographic order on characters.
* Amounts live in a type `α` with `0` and `+`; the code adds them from left to
  right exactly as the embedding does.  `JSInteger` is the instance for
  JavaScript numbers with integer values: its `+` rounds the exact sum to
  binary64.
* The clock, the server and the charting library are outside the script.  Each
  is an oracle: the clock gives the value of each successive `new Date()`, the
  server gives the outcome of each successive `fetch`, the library says whether
  a call into it raises.
-/

namespace NazrulMaqam

/-! ## Dates (ECMA-262 21.4.1) -/

def msPerDay : Int := 86400000

def Day (t : Int) : Int := t / msPerDay

def TimeWithinDay (t : Int) : Int := t % msPerDay

def DaysInYear (y : Int) : Int :=
  if y % 4 ≠ 0 then 365
  else if y % 100 ≠ 0 then 366
  else if y % 400 ≠ 0 then 365
  else 366

def DayFromYear (y : Int) : Int :=
  365 * (y - 1970) + (y - 1969) / 4 - (y - 1901) / 100 + (y - 1601) / 400

/-- The year containing day number `n`: the largest `y` with `DayFromYear y ≤ n`,
computed by splitting the 400-year cycle that starts on 1601-01-01 into
centuries, four-year groups and years. -/
def YearFromDay (n : Int) : Int :=
  let z := n + 134774
  let era := z / 146097
  let doe := z % 146097
  let c := min (doe / 36524) 3
  let doc := doe - c * 36524
  let q := min (doc / 1461) 24
  let doq := doc - q * 1461
  let yy := min (doq / 365) 3
  1601 + era * 400 + c * 100 + q * 4 + yy

def YearFromTime (t : Int) : Int := YearFromDay (Day t)

def leapDays (y : Int) : Int := if DaysInYear y = 366 then 1 else 0

def InLeapYear (t : Int) : Int := leapDays (YearFromTime t)

def DayWithinYear (t : Int) : Int := Day t - DayFromYear (YearFromTime t)

/-- The month number 0..11 of a day within a year (`leap` is 0 or 1). -/
def monthOfDayWithinYear (dwy leap : Int) : Int :=
  if dwy < 31 then 0
  else if dwy < 59 + leap then 1
  else if dwy < 90 + leap then 2
  else if dwy < 120 + leap then 3
  else if dwy < 151 + leap then 4
  else if dwy < 181 + leap then 5
  else if dwy < 212 + leap then 6
  else if dwy < 243 + leap then 7
  else if dwy < 273 + leap then 8
  else if dwy < 304 + leap then 9
  else if dwy < 334 + leap then 10
  else 11

/-- The day within the year on which month `m` (0..11) starts. -/
def monthStart (m leap : Int) : Int :=
  if m = 0 then 0
  else if m = 1 then 31
  else if m = 2 then 59 + leap
  else if m = 3 then 90 + leap
  else if m = 4 then 120 + leap
  else if m = 5 then 151 + leap
  else if m = 6 then 181 + leap
  else if m = 7 then 212 + leap
  else if m = 8 then 243 + leap
  else if m = 9 then 273 + leap
  else if m = 10 then 304 + leap
  else 334 + leap

def MonthFromTime (t : Int) : Int := monthOfDayWithinYear (DayWithinYear t) (InLeapYear t)

def DateFromTime (t : Int) : Int :=
  DayWithinYear t - monthStart (MonthFromTime t) (InLeapYear t) + 1

/-- The day number of the `date`-th day of month `month` of `year`, where
`month` and `date` may lie outside their usual ranges. -/
def MakeDay (year month date : Int) : Int :=
  let ym := year + month / 12
  let mn := month % 12
  DayFromYear ym + monthStart mn (leapDays ym) + date - 1

def MakeDate (day time : Int) : Int := day * msPerDay + time

/-- `Date.prototype.getFullYear`. -/
def getFullYear (t : Int) : Int := YearFromTime t

/-- `Date.prototype.getMonth`. -/
def getMonth (t : Int) : Int := MonthFromTime t

/-- `Date.prototype.getDate`. -/
def getDate (t : Int) : Int := DateFromTime t

/-- `Date.prototype.setDate`: the new time value of a date whose day of the
month is set to `dt`. -/
def setDate (t dt : Int) : Int :=
  MakeDate (MakeDay (YearFromTime t) (MonthFromTime t) dt) (TimeWithinDay t)

/-! ## Strings -/

/-- `String.prototype.padStart(n, '0')`. -/
def padStart0 (n : Nat) (s : String) : String :=
  String.mk (List.replicate (n - s.data.length) '0' ++ s.data)

/-- The source's `formatDate`: year, month and day joined by `-`, month and day
padded to two digits. -/
def formatDate (date : Int) : String :=
  let year := getFullYear date
  let month := padStart0 2 (toString (getMonth date + 1))
  let day := padStart0 2 (toString (getDate date))
  toString year ++ "-" ++ month ++ "-" ++ day

/-- `s.split('T')[0]`: the part of `s` before its first `T`, all of `s` when it
has none. -/
def splitT0 (s : String) : String :=
  String.mk (s.data.takeWhile (fun c => c != 'T'))

/-! ## The `Map` of totals -/

/-- A JavaScript `Map` from strings: its entries in insertion order. -/
abbrev DateMap (α : Type) := List (String × α)

def DateMap.has {α : Type} (m : DateMap α) (k : String) : Bool :=
  m.any (fun e => e.1 == k)

def DateMap.get {α : Type} : DateMap α → String → Option α
  | [], _ => none
  | (k1, v) :: rest, k => if k1 = k then some v else DateMap.get rest k

/-- `Map.prototype.set`: an existing key keeps its place and takes the new
value, a new key is appended. -/
def DateMap.set {α : Type} : DateMap α → String → α → DateMap α
  | [], k, v => [(k, v)]
  | (k1, v1) :: rest, k, v =>
    if k1 = k then (k1, v) :: rest else (k1, v1) :: DateMap.set rest k v

def DateMap.keys {α : Type} (m : DateMap α) : List String := m.map Prod.fst

/-! ## Contributions and the chart series -/

structure Donation (α : Type) where
  amount : α
  date : String
  is_automatic : Bool
  comment : Option String
  created_at : String
deriving DecidableEq, Repr

structure ChartData (α : Type) where
  labels : List String
  values : List (Option α)
deriving DecidableEq, Repr

/-- The `for` loop of `prepareChartData`: while `d <= end`, enter
`formatDate(d)` with total 0 and move `d` one day of the month on.  `fuel`
bounds the number of iterations. -/
def initDates {α : Type} [Zero α] : Nat → Int → Int → DateMap α → DateMap α
  | 0, _, _, m => m
  | fuel + 1, d, endD, m =>
    if d ≤ endD then
      initDates fuel (setDate d (getDate d + 1)) endD (m.set (formatDate d) 0)
    else m

/-- A number of iterations that the loop from `startD` to `endD` cannot exceed. -/
def loopBound (startD endD : Int) : Nat := ((endD - startD) / msPerDay + 1).toNat

/-- The body of the `forEach` of `prepareChartData`. -/
def addDonation {α : Type} [Add α] (m : DateMap α) (donation : Donation α) : DateMap α :=
  let date := splitT0 donation.date
  if m.has date then
    match m.get date with
    | some v => m.set date (v + donation.amount)
    | none => m
  else m

/-- The order of the default `Array.prototype.sort`: `a` does not come after
`b` when the strings are compared code unit by code unit. -/
def codeUnitsLe : List Char → List Char → Bool
  | [], _ => true
  | _ :: _, [] => false
  | a :: as, b :: bs =>
    if a.toNat < b.toNat then true
    else if b.toNat < a.toNat then false
    else codeUnitsLe as bs

/-- The default `Array.prototype.sort` on strings (a stable sort). -/
def sortStrings (l : List String) : List String :=
  l.insertionSort (fun a b => codeUnitsLe a.data b.data = true)

/-- The source's `prepareChartData`.  `endNow` and `startNow` are the values of
the two `new Date()` it evaluates, in that order; `toLabel` is
`date => new Date(date).toLocaleDateString('en-US', ...)`. -/
def prepareChartData {α : Type} [Zero α] [Add α] (toLabel : String → String)
    (endNow startNow : Int) (donations : List (Donation α)) : ChartData α :=
  let endD := endNow
  let startD := setDate startNow (getDate endD - 29)
  let donationsByDate : DateMap α := initDates (loopBound startD endD) startD endD []
  let donationsByDate := donations.foldl addDonation donationsByDate
  let sortedDates := sortStrings donationsByDate.keys
  let labels := sortedDates.map toLabel
  let values := sortedDates.map (fun date => donationsByDate.get date)
  { labels := labels, values := values }

/-- The dates of the chart in the order of its entries: the sorted keys of the
map that the `for` loop of `prepareChartData` builds. -/
def chartDates (endNow startNow : Int) : List String :=
  let startD := setDate startNow (getDate endNow - 29)
  sortStrings (DateMap.keys (initDates (loopBound startD endNow) startD endNow ([] : DateMap Nat)))

/-- The amounts of the contributions whose truncated date is `k`, added from
left to right starting from 0. -/
def totalOn {α : Type} [Zero α] [Add α] (k : String) (donations : List (Donation α)) : α :=
  ((donations.filter (fun d => splitT0 d.date = k)).map Donation.amount).foldl (fun x y => x + y) 0

/-! ## Values, errors, requests -/

/-- A JavaScript number: `NaN`, a finite value, or an infinity. -/
inductive JSNumber where
  | nan
  | num (q : ℚ)
  | posInf
  | negInf
deriving DecidableEq

def JSNumber.isNaN : JSNumber → Bool
  | .nan => true
  | _ => false

/-- The comparison `x < 0`. -/
def JSNumber.ltZero : JSNumber → Bool
  | .num q => decide (q < 0)
  | .negInf => true
  | _ => false

/-- The comparison `x <= 0`. -/
def JSNumber.leZero : JSNumber → Bool
  | .num q => decide (q ≤ 0)
  | .negInf => true
  | _ => false

/-- A value produced by `JSON.parse`. -/
inductive Json where
  | null
  | bool (b : Bool)
  | num (q : ℚ)
  | str (s : String)
  | arr (items : List Json)
  | obj (fields : List (String × Json))

/-- Property access `v.name` on a parsed value that is not `null`: the last
field of that name of an object, `none` (that is `undefined`) otherwise. -/
def Json.field (v : Json) (name : String) : Option Json :=
  match v with
  | .obj fields => (fields.reverse.find? (fun f => f.1 = name)).map Prod.snd
  | _ => none

/-- JavaScript truthiness. -/
def Json.truthy : Json → Bool
  | .null => false
  | .bool b => b
  | .num q => decide (q ≠ 0)
  | .str s => decide (s ≠ "")
  | .arr _ => true
  | .obj _ => true

mutual
/-- `Array.prototype.join` with the separator `,`. -/
def Json.joinStr (numberToString : ℚ → String) : List Json → String
  | [] => ""
  | [x] => Json.elemStr numberToString x
  | x :: y :: rest =>
    Json.elemStr numberToString x ++ "," ++ Json.joinStr numberToString (y :: rest)
termination_by structural x => x
/-- The text of one array element inside `join`: empty for `null`, its
`ToString` otherwise. -/
def Json.elemStr (numberToString : ℚ → String) : Json → String
  | .null => ""
  | .bool b => if b then "true" else "false"
  | .num q => numberToString q
  | .str s => s
  | .arr items => Json.joinStr numberToString items
  | .obj _ => "[object Object]"
termination_by structural x => x
end

/-- The abstract operation `ToString` on a parsed value. -/
def Json.toStr (numberToString : ℚ → String) : Json → String
  | .null => "null"
  | .bool b => if b then "true" else "false"
  | .num q => numberToString q
  | .str s => s
  | .arr items => Json.joinStr numberToString items
  | .obj _ => "[object Object]"

structure JSError where
  name : String
  message : String
deriving DecidableEq

/-- How a call ends: with a value or with a raised error. -/
inductive Outcome (α : Type) where
  | ok (value : α)
  | throw (error : JSError)

/-- How a `fetch` ends: the promise rejects, or a response arrives with its
status, status text, body text and the result of reading the body as JSON. -/
inductive FetchResult (α : Type) where
  | rejected (error : JSError)
  | response (status : Nat) (statusText : String) (text : String) (json : Except JSError α)

/-- `response.ok`. -/
def isOk (status : Nat) : Bool := decide (200 ≤ status) && decide (status ≤ 299)

def API_BASE_URL : String := "https://nazrulmaqam-production.up.railway.app/api"

inductive Body where
  | none
  | settings (daily_amount : JSNumber)
  | donation (amount : JSNumber) (date : String) (is_automatic : Bool) (comment : Option String)
deriving DecidableEq

structure Request where
  method : String
  url : String
  query : List (String × String)
  body : Body
  timeout : Option Nat
deriving DecidableEq

inductive Event where
  | fetch (request : Request)
  | alert (message : String)
deriving DecidableEq

def Event.request : Event → Option Request
  | .fetch r => some r
  | .alert _ => none

structure User where
  daily_amount : ℚ

structure Summary where
  total_all_time : ℚ
  total_this_month : ℚ

structure AutoDonateResult where
  message : String
  count : Nat

/-- What lies outside the script: the server, the clock, the charting library
and the built-in functions whose results depend on the browser. -/
structure Env where
  getUser : Nat → FetchResult User
  putUserSettings : Nat → JSNumber → FetchResult User
  postAutoDonate : Nat → FetchResult AutoDonateResult
  getSummary : Nat → FetchResult Summary
  getDonations : Nat → List (String × String) → FetchResult (List (Donation ℚ))
  postDonations : Nat → Body → FetchResult Json
  now : Nat → Int
  chartRaises : Nat → Bool
  parseFloat : String → JSNumber
  numberToString : ℚ → String
  trim : String → String
  toChartLabel : String → String
  toLongDate : String → String
  toLocaleTimeString : String → String

/-! ## The page -/

structure Row where
  formattedDate : String
  amount : String
  auto : Bool
  comment : Option String
  time : String
deriving DecidableEq

/-- The content of the list element: the fixed placeholder or the rendered rows. -/
inductive ListView where
  | blank
  | placeholder
  | rows (items : List Row)
deriving DecidableEq

structure Dom where
  totalAllTime : String
  totalThisMonth : String
  currentDailyAmount : String
  changeAmountFormHidden : Bool
  dailyAmountInput : String
  donationAmountInput : String
  donationDateInput : String
  donationCommentInput : String
  startDateInput : String
  endDateInput : String
  donationList : ListView
  hasChartCanvas : Bool
  banners : List String
deriving DecidableEq

/-- A chart instance: `id` tells instances apart. -/
structure Chart where
  id : Nat
  labels : List String
  data : List (Option ℚ)
deriving DecidableEq

structure State where
  dom : Dom
  donationChart : Option Chart
  events : List Event
  requests : Nat
  clockReads : Nat
  chartCalls : Nat
  chartsMade : Nat
  destroyed : List Nat
deriving DecidableEq

/-- The requests issued between state `s` and the later state `t`. -/
def sentSince (s t : State) : List Request :=
  (t.events.drop s.events.length).filterMap Event.request

def alert (message : String) (s : State) : State :=
  { s with events := s.events ++ [Event.alert message] }

/-- Record a request as issued. -/
def send (r : Request) (s : State) : State :=
  { s with events := s.events ++ [Event.fetch r], requests := s.requests + 1 }

def formatCurrency (env : Env) (amount : ℚ) : String :=
  env.numberToString amount ++ "/-"

def displayErrorMessage (message : String) (s : State) : State :=
  { s with dom := { s.dom with banners := message :: s.dom.banners } }

/-! ## The functions of the script -/

def userRequest (timeout : Option Nat) : Request :=
  { method := "GET", url := API_BASE_URL ++ "/user", query := [], body := Body.none,
    timeout := timeout }

def autoDonateRequest : Request :=
  { method := "POST", url := API_BASE_URL ++ "/auto-donate", query := [], body := Body.none,
    timeout := none }

def settingsRequest (dailyAmount : JSNumber) : Request :=
  { method := "PUT", url := API_BASE_URL ++ "/user/settings", query := [],
    body := Body.settings dailyAmount, timeout := none }

def summaryRequest : Request :=
  { method := "GET", url := API_BASE_URL ++ "/donations/summary", query := [],
    body := Body.none, timeout := none }

def donationsRequest (query : List (String × String)) : Request :=
  { method := "GET", url := API_BASE_URL ++ "/donations", query := query, body := Body.none,
    timeout := none }

def submitRequest (body : Body) : Request :=
  { method := "POST", url := API_BASE_URL ++ "/donations", query := [], body := body,
    timeout := none }

/-- The source's `runAutoDonateSilently`: every failure is caught, the caller
gets `null`. -/
def runAutoDonateSilently (env : Env) (s : State) : Option AutoDonateResult × State :=
  let s1 := send autoDonateRequest s
  match env.postAutoDonate s.requests with
  | .rejected _ => (none, s1)
  | .response status _ _ json =>
    if !isOk status then (none, s1)
    else
      match json with
      | .error _ => (none, s1)
      | .ok result => (some result, s1)

/-- The source's `loadUserSettings`: a failure is logged and raised again. -/
def loadUserSettings (env : Env) (s : State) : Outcome Unit × State :=
  let s1 := send (userRequest none) s
  match env.getUser s.requests with
  | .rejected error => (.throw error, s1)
  | .response status statusText _ json =>
    if !isOk status then
      (.throw ⟨"Error", "Failed to load user settings: " ++ statusText⟩, s1)
    else
      match json with
      | .error error => (.throw error, s1)
      | .ok user =>
        (.ok (), { s1 with dom := { s1.dom with
          dailyAmountInput := env.numberToString user.daily_amount,
          currentDailyAmount := formatCurrency env user.daily_amount } })

/-- The source's `saveSettings`. -/
def saveSettings (env : Env) (s : State) : State :=
  let dailyAmount := env.parseFloat s.dom.dailyAmountInput
  if dailyAmount.isNaN || dailyAmount.ltZero then
    alert "Please enter a valid daily amount (must be 0 or greater)" s
  else
    let s1 := send (settingsRequest dailyAmount) s
    match env.putUserSettings s.requests dailyAmount with
    | .rejected _ => alert "Failed to save settings. Please try again." s1
    | .response status _ _ json =>
      if !isOk status then alert "Failed to save settings. Please try again." s1
      else
        match json with
        | .error _ => alert "Failed to save settings. Please try again." s1
        | .ok user =>
          { s1 with dom := { s1.dom with
            currentDailyAmount := formatCurrency env user.daily_amount,
            changeAmountFormHidden := true } }

/-- The source's `loadSummary`: a failure is logged and raised again. -/
def loadSummary (env : Env) (s : State) : Outcome Unit × State :=
  let s1 := send summaryRequest s
  match env.getSummary s.requests with
  | .rejected error => (.throw error, s1)
  | .response status statusText _ json =>
    if !isOk status then (.throw ⟨"Error", "Failed to load summary: " ++ statusText⟩, s1)
    else
      match json with
      | .error error => (.throw error, s1)
      | .ok summary =>
        (.ok (), { s1 with dom := { s1.dom with
          totalAllTime := formatCurrency env summary.total_all_time,
          totalThisMonth := formatCurrency env summary.total_this_month } })

/-- One rendered entry of the history list. -/
def renderRow (env : Env) (donation : Donation ℚ) : Row :=
  { formattedDate := env.toLongDate donation.date,
    amount := formatCurrency env donation.amount,
    auto := donation.is_automatic,
    comment := donation.comment.filter (fun c => decide (c ≠ "")),
    time := env.toLocaleTimeString donation.created_at }

/-- The source's `renderDonationList`. -/
def renderDonationList (env : Env) (donations : List (Donation ℚ)) (s : State) : State :=
  if donations.length = 0 then
    { s with dom := { s.dom with donationList := ListView.placeholder } }
  else
    { s with dom := { s.dom with donationList := ListView.rows (donations.map (renderRow env)) } }

/-- The query of `loadDonations`: a parameter is appended for each date that is
given and not empty. -/
def donationsQuery (startDate endDate : Option String) : List (String × String) :=
  (match startDate with
    | some d => if d ≠ "" then [("start_date", d)] else []
    | none => []) ++
  (match endDate with
    | some d => if d ≠ "" then [("end_date", d)] else []
    | none => [])

/-- The source's `loadDonations`: whatever fails inside, the empty list is
rendered and returned. -/
def loadDonations (env : Env) (startDate endDate : Option String) (s : State) :
    Outcome (List (Donation ℚ)) × State :=
  let query := donationsQuery startDate endDate
  let s1 := send (donationsRequest query) s
  match env.getDonations s.requests query with
  | .rejected _ => (.ok [], renderDonationList env [] s1)
  | .response status _ _ json =>
    if !isOk status then (.ok [], renderDonationList env [] s1)
    else
      match json with
      | .error _ => (.ok [], renderDonationList env [] s1)
      | .ok donations => (.ok donations, renderDonationList env donations s1)

/-- The call of `prepareChartData` inside the page: it reads the clock twice. -/
def prepareChartDataNow (env : Env) (donations : List (Donation ℚ)) (s : State) :
    ChartData ℚ × State :=
  (prepareChartData env.toChartLabel (env.now s.clockReads) (env.now (s.clockReads + 1))
      donations,
    { s with clockReads := s.clockReads + 2 })

/-- The source's `createDonationChart`: an existing chart is destroyed, a new
one is constructed; an error raised on the way is caught and logged. -/
def createDonationChart (env : Env) (donations : List (Donation ℚ)) (s : State) : State :=
  if !s.dom.hasChartCanvas then s
  else
    let destroyedOrRaised : Option State :=
      match s.donationChart with
      | some chart =>
        if env.chartRaises s.chartCalls then none
        else some { s with chartCalls := s.chartCalls + 1, destroyed := chart.id :: s.destroyed,
                           donationChart := none }
      | none => some s
    match destroyedOrRaised with
    | none => { s with chartCalls := s.chartCalls + 1 }
    | some s1 =>
      let (chartData, s2) := prepareChartDataNow env donations s1
      if env.chartRaises s2.chartCalls then { s2 with chartCalls := s2.chartCalls + 1 }
      else
        { s2 with chartCalls := s2.chartCalls + 1, chartsMade := s2.chartsMade + 1,
                  donationChart := some ⟨s2.chartsMade, chartData.labels, chartData.values⟩ }

/-- The source's `updateDonationChart`: without a chart it creates one; with a
chart it replaces the two arrays and calls `update`; if that raises, the
`catch` block calls `createDonationChart`. -/
def updateDonationChart (env : Env) (donations : List (Donation ℚ)) (s : State) : State :=
  match s.donationChart with
  | none => createDonationChart env donations s
  | some chart =>
    let (chartData, s1) := prepareChartDataNow env donations s
    let s2 := { s1 with
      donationChart := some { chart with labels := chartData.labels, data := chartData.values },
      chartCalls := s1.chartCalls + 1 }
    if env.chartRaises s1.chartCalls then createDonationChart env donations s2
    else s2

/-- The source's `initChart`. -/
def initChart (env : Env) (s : State) : State :=
  match loadDonations env none none s with
  | (.ok donations, s1) => createDonationChart env donations s1
  | (.throw _, s1) => createDonationChart env [] s1

/-- The text shown by the `catch` block of `handleDonationSubmit` for an error. -/
def submitFailureText (error : JSError) : String :=
  let errorMessage := if error.message ≠ "" then error.message else "Unknown error"
  let errorMessage :=
    if errorMessage = "[object Object]" then "Server returned an invalid response"
    else errorMessage
  "Failed to add Contribution: " ++ errorMessage

/-- The part of `handleDonationSubmit` that follows the reading of the response
body, up to the point where the form is reset: the error it raises, if any. -/
def checkSubmitResponse (env : Env) (status : Nat) (responseText : String)
    (parsed : Except JSError Json) : Option JSError :=
  match parsed with
  | .error _ =>
    if !isOk status then
      some ⟨"Error", if responseText ≠ "" then responseText
                     else "HTTP error: " ++ toString status⟩
    else none
  | .ok responseData =>
    if !isOk status then
      match (if responseData.truthy then responseData.field "detail" else none) with
      | some detail =>
        if detail.truthy then some ⟨"Error", detail.toStr env.numberToString⟩
        else some ⟨"Error", "HTTP error: " ++ toString status⟩
      | none => some ⟨"Error", "HTTP error: " ++ toString status⟩
    else none

/-- The JSON body that `handleDonationSubmit` sends: the amount, the date, the
fixed flag and the trimmed comment, `null` when it is empty. -/
def submitBody (env : Env) (s : State) : Body :=
  let amount := env.parseFloat s.dom.donationAmountInput
  let date := s.dom.donationDateInput
  let comment := env.trim s.dom.donationCommentInput
  Body.donation amount date false (if comment ≠ "" then some comment else none)

/-- The source's `handleDonationSubmit`. -/
def handleDonationSubmit (env : Env) (s : State) : State :=
  let amount := env.parseFloat s.dom.donationAmountInput
  if amount.isNaN || amount.leZero then
    alert "Please enter a valid amount (must be greater than 0)" s
  else
    let body := submitBody env s
    let s1 := send (submitRequest body) s
    match env.postDonations s.requests body with
    | .rejected error => alert (submitFailureText error) s1
    | .response status _ responseText parsed =>
      match checkSubmitResponse env status responseText parsed with
      | some error => alert (submitFailureText error) s1
      | none =>
        let s2 := { s1 with dom := { s1.dom with donationAmountInput := "",
                                                 donationCommentInput := "" } }
        match loadSummary env s2 with
        | (.throw error, s3) => alert (submitFailureText error) s3
        | (.ok _, s3) =>
          match loadDonations env none none s3 with
          | (.throw error, s4) => alert (submitFailureText error) s4
          | (.ok donations, s4) =>
            let s5 :=
              if s4.donationChart.isSome then updateDonationChart env donations s4
              else createDonationChart env donations s4
            alert "Contribution added successfully!" s5

/-- The text of the banner that the `catch` block of `initApp` shows. -/
def initFailureText (error : JSError) : String :=
  if error.name = "AbortError" then
    "Connection to server timed out. Please check if the server is running at the correct address."
  else
    "Failed to connect to server: " ++ error.message ++
      ". Please verify the server is running at " ++ API_BASE_URL

/-- The source's `initApp`. -/
def initApp (env : Env) (s : State) : State :=
  let s1 := send (userRequest (some 5000)) s
  match env.getUser s.requests with
  | .rejected error => displayErrorMessage (initFailureText error) s1
  | .response status statusText _ _ =>
    if !isOk status then
      displayErrorMessage
        (initFailureText ⟨"Error", "Server returned " ++ toString status ++ ": " ++ statusText⟩) s1
    else
      match loadUserSettings env s1 with
      | (.throw error, s2) => displayErrorMessage (initFailureText error) s2
      | (.ok _, s2) =>
        let s3 := (runAutoDonateSilently env s2).2
        match loadSummary env s3 with
        | (.throw error, s4) => displayErrorMessage (initFailureText error) s4
        | (.ok _, s4) =>
          match loadDonations env none none s4 with
          | (.throw error, s5) => displayErrorMessage (initFailureText error) s5
          | (.ok _, s5) => initChart env s5

/-- The instants `d`, `d` plus one day, ..., `n` of them. -/
def windowDays (d : Int) (n : Nat) : List Int :=
  (List.range n).map (fun (i : Nat) => d + Int.ofNat i * msPerDay)

/-- Enter each of the given instants into the map with total 0, as the body of
the `for` loop does. -/
def enterDays {α : Type} [Zero α] (m : DateMap α) (days : List Int) : DateMap α :=
  days.foldl (fun acc t => acc.set (formatDate t) 0) m

/-- The ten characters of a date: four digits of the year, two of the month,
two of the day. -/
def dateKey (y m d : Nat) : List Char :=
  [Nat.digitChar (y / 1000), Nat.digitChar (y / 100 % 10), Nat.digitChar (y / 10 % 10),
   Nat.digitChar (y % 10), '-', Nat.digitChar (m / 10), Nat.digitChar (m % 10), '-',
   Nat.digitChar (d / 10), Nat.digitChar (d % 10)]

/-! ## Notions used by the specification -/

/-- The number is a positive number (not `NaN`, above 0). -/
def JSNumber.positive : JSNumber → Bool
  | .num q => decide (0 < q)
  | .posInf => true
  | _ => false

/-- The number is a non-negative number (not `NaN`, not below 0). -/
def JSNumber.nonNegative : JSNumber → Bool
  | .num q => decide (0 ≤ q)
  | .posInf => true
  | _ => false

/-- The request ended with a 2xx response whose body was read as JSON. -/
def FetchResult.succeeded {α : Type} : FetchResult α → Bool
  | .rejected _ => false
  | .response status _ _ (.ok _) => isOk status
  | .response _ _ _ (.error _) => false

/-- Every remote call that the server is asked for succeeds. -/
def AllSucceed (env : Env) : Prop :=
  (∀ n, (env.getUser n).succeeded = true) ∧
  (∀ n x, (env.putUserSettings n x).succeeded = true) ∧
  (∀ n, (env.postAutoDonate n).succeeded = true) ∧
  (∀ n, (env.getSummary n).succeeded = true) ∧
  (∀ n q, (env.getDonations n q).succeeded = true) ∧
  (∀ n b, (env.postDonations n b).succeeded = true)

/-- The text has the shape `YYYY-MM-DD`: four digits, two digits and two digits
separated by hyphens. -/
def isCalendarDate (s : String) : Bool :=
  match s.data with
  | [y1, y2, y3, y4, h1, m1, m2, h2, d1, d2] =>
    y1.isDigit && y2.isDigit && y3.isDigit && y4.isDigit && h1 == '-' &&
    m1.isDigit && m2.isDigit && h2 == '-' && d1.isDigit && d2.isDigit
  | _ => false

/-! ## Sample inputs -/

/-- 2024-03-15, 12:00:00.000 local time. -/
def noon : Int := 19797 * msPerDay + 43200000

/-- A contribution entered by hand, without comment. -/
def manual {α : Type} (amount : α) (date : String) : Donation α :=
  ⟨amount, date, false, none, "2024-03-15T09:00:00"⟩

/-- A server that answers every request with 200 and well-formed JSON, a clock
that stands at `noon`, a charting library that never raises. -/
def calmEnv : Env where
  getUser := fun _ => .response 200 "OK" "" (.ok ⟨10⟩)
  putUserSettings := fun _ _ => .response 200 "OK" "" (.ok ⟨10⟩)
  postAutoDonate := fun _ => .response 200 "OK" "" (.ok ⟨"done", 0⟩)
  getSummary := fun _ => .response 200 "OK" "" (.ok ⟨0, 0⟩)
  getDonations := fun _ _ => .response 200 "OK" "" (.ok [])
  postDonations := fun _ _ => .response 200 "OK" "" (.ok Json.null)
  now := fun _ => noon
  chartRaises := fun _ => false
  parseFloat := fun text => if text = "25" then .num 25 else if text = "0" then .num 0 else .nan
  numberToString := fun _ => "n"
  trim := fun text => text
  toChartLabel := fun date => date
  toLongDate := fun date => date
  toLocaleTimeString := fun date => date

/-- The page before any request: empty inputs except as given, no chart. -/
def pageWith (dailyAmountInput donationAmountInput : String) : State where
  dom :=
    { totalAllTime := "", totalThisMonth := "", currentDailyAmount := "n/-",
      changeAmountFormHidden := false, dailyAmountInput := dailyAmountInput,
      donationAmountInput := donationAmountInput, donationDateInput := "2024-03-15",
      donationCommentInput := "lunch", startDateInput := "", endDateInput := "",
      donationList := ListView.blank, hasChartCanvas := true, banners := [] }
  donationChart := none
  events := []
  requests := 0
  clockReads := 0
  chartCalls := 0
  chartsMade := 0
  destroyed := []

/-- A server that refuses every contribution with the given status, body text
and parsed body. -/
def refusingEnv (status : Nat) (text : String) (parsed : Except JSError Json) : Env :=
  { calmEnv with postDonations := fun _ _ => .response status "" text parsed }

/-- The body of a validation failure as the server's framework reports it: a
list of error objects under `detail`. -/
def validationFailure : Json :=
  .obj [("detail", .arr [.obj [("msg", .str "invalid date")]])]

/-- A server whose history request does not get through. -/
def offlineEnv : Env :=
  { calmEnv with getDonations := fun _ _ => .rejected ⟨"TypeError", "Failed to fetch"⟩ }

/-- A charting library whose first call raises. -/
def brittleEnv : Env :=
  { calmEnv with chartRaises := fun n => decide (n = 0) }

/-- A page that already shows chart number 0. -/
def pageWithChart : State :=
  { pageWith "" "" with donationChart := some ⟨0, [], []⟩, chartsMade := 1 }

/-- The request did not get through or came back with a status outside 2xx. -/
def FetchResult.refused {α : Type} : FetchResult α → Bool
  | .rejected _ => true
  | .response status _ _ _ => !isOk status

/-- A server that refuses a contribution with 422 and a list of errors. -/
def validationEnv : Env :=
  refusingEnv 422 "\x7b\"detail\":[\x7b\"msg\":\"invalid date\"\x7d]\x7d" (.ok validationFailure)

/-- A server that refuses a contribution with 500 and the given text, which is
not JSON. -/
def plainTextEnv (text : String) : Env :=
  refusingEnv 500 text (.error ⟨"SyntaxError", "Unexpected token"⟩)

/-- A server that refuses a contribution with 500 and a detail text. -/
def badDateEnv : Env :=
  refusingEnv 500 "\x7b\"detail\":\"bad date\"\x7d" (.ok (.obj [("detail", .str "bad date")]))

/-- Between `s` and `t` the bootstrap stopped after the requests `sent`: these
and no others were issued, one banner was put on top of the page, and neither
the history list nor the chart was touched. -/
def haltedAfter (s t : State) (sent : List Request) : Prop :=
  sentSince s t = sent ∧
  (∃ message, t.dom.banners = message :: s.dom.banners) ∧
  t.dom.donationList = s.dom.donationList ∧
  t.donationChart = s.donationChart ∧
  t.clockReads = s.clockReads

/-- A server that cannot be reached for `/user`. -/
def unreachableEnv : Env :=
  { calmEnv with getUser := fun _ => .rejected ⟨"TypeError", "Failed to fetch"⟩ }

/-- A server that answers the reachability check and then fails on `/user`. -/
def settingsDownEnv : Env :=
  { calmEnv with getUser := fun n =>
      (if n = 0 then FetchResult.response 200 "OK" "" (.ok ⟨10⟩)
       else FetchResult.response 500 "Internal Server Error" ""
        (.error ⟨"SyntaxError", "Unexpected end"⟩)) }

/-- A server whose summary fails. -/
def summaryDownEnv : Env :=
  { calmEnv with getSummary := fun _ =>
      (FetchResult.response 500 "Internal Server Error" ""
        (.error ⟨"SyntaxError", "Unexpected end"⟩)) }

/-! ## Amounts as JavaScript numbers -/

/-- The least `k`, counted from `k` on, with `a < 2 ^ (53 + k)`, found within
`fuel` steps. -/
def shiftFor (a : Nat) : Nat → Nat → Nat
  | 0, k => k
  | fuel + 1, k => if a < 2 ^ (53 + k) then k else shiftFor a fuel (k + 1)

/-- The IEEE 754 binary64 rounding of a natural number: the nearest number with
53 significant bits, a tie going to the even significand.  The 971 steps cover
every number below `2 ^ 1024`, the range of finite doubles. -/
def roundNat53 (a : Nat) : Nat :=
  let k := shiftFor a 971 0
  let q := a / 2 ^ k
  let r := a % 2 ^ k
  let q := if 2 * r > 2 ^ k ∨ (2 * r = 2 ^ k ∧ q % 2 = 1) then q + 1 else q
  q * 2 ^ k

/-- The binary64 rounding of an integer. -/
def roundInt53 (x : Int) : Int :=
  if x < 0 then -(Int.ofNat (roundNat53 x.natAbs)) else Int.ofNat (roundNat53 x.natAbs)

/-- A JavaScript number whose value is an integer (below `2 ^ 1024` in
magnitude).  The sum of two such numbers is the exact sum rounded to binary64,
as `+` on numbers computes it. -/
structure JSInteger where
  val : Int
deriving DecidableEq, Repr

instance : Zero JSInteger := ⟨⟨0⟩⟩

instance : Add JSInteger := ⟨fun a b => ⟨roundInt53 (a.val + b.val)⟩⟩

/-! ## Facts about dates -/

theorem ite_month_range {c : Prop} [Decidable c] {a b : Int}
    (ha : 0 ≤ a ∧ a ≤ 11) (hb : 0 ≤ b ∧ b ≤ 11) :
    0 ≤ (if c then a else b) ∧ (if c then a else b) ≤ 11 := by
  by_cases h : c
  · rw [if_pos h]; exact ha
  · rw [if_neg h]; exact hb

theorem monthOfDayWithinYear_range (dwy leap : Int) :
    0 ≤ monthOfDayWithinYear dwy leap ∧ monthOfDayWithinYear dwy leap ≤ 11 := by
  unfold monthOfDayWithinYear
  repeat' apply ite_month_range
  all_goals constructor <;> omega

/-- Setting the day of the month to `getDate + k` moves a date by `k` whole days. -/
theorem setDate_getDate_add (t k : Int) : setDate t (getDate t + k) = t + k * msPerDay := by
  have hr := monthOfDayWithinYear_range (DayWithinYear t) (InLeapYear t)
  have hdiv : MonthFromTime t / 12 = 0 := by unfold MonthFromTime; omega
  have hmod : MonthFromTime t % 12 = MonthFromTime t := by unfold MonthFromTime; omega
  have hsplit : t / msPerDay * msPerDay + t % msPerDay = t := by
    have := Int.ediv_add_emod t msPerDay
    rw [mul_comm]; exact this
  unfold setDate MakeDate MakeDay getDate DateFromTime TimeWithinDay
  simp only [hdiv, hmod, add_zero]
  unfold InLeapYear DayWithinYear Day
  have : (DayFromYear (YearFromTime t) + monthStart (MonthFromTime t) (leapDays (YearFromTime t)) +
      (t / msPerDay - DayFromYear (YearFromTime t) -
        monthStart (MonthFromTime t) (leapDays (YearFromTime t)) + 1 + k) - 1)
      = t / msPerDay + k := by ring
  rw [this]
  linarith [hsplit]

theorem DayFromYear_succ (y : Int) : DayFromYear (y + 1) = DayFromYear y + DaysInYear y := by
  simp only [DayFromYear, DaysInYear]
  split_ifs <;> omega

theorem DayFromYear_cycle (era c q yy : Int) (hc0 : 0 ≤ c) (hc : c ≤ 3) (hq0 : 0 ≤ q)
    (hq : q ≤ 24) (hy0 : 0 ≤ yy) (hy : yy ≤ 3) :
    DayFromYear (1601 + era * 400 + c * 100 + q * 4 + yy) =
      era * 146097 + c * 36524 + q * 1461 + yy * 365 - 134774 := by
  unfold DayFromYear
  omega

/-- `YearFromDay n` is the year of day `n` in the sense of ECMA-262: its first
day is not after `n` and the first day of the next year is. -/
theorem YearFromDay_spec (n : Int) :
    DayFromYear (YearFromDay n) ≤ n ∧ n < DayFromYear (YearFromDay n + 1) := by
  have hdoe0 : 0 ≤ (n + 134774) % 146097 := Int.emod_nonneg _ (by norm_num)
  have hdoe1 : (n + 134774) % 146097 < 146097 := Int.emod_lt_of_pos _ (by norm_num)
  have hsplit := Int.ediv_add_emod (n + 134774) 146097
  unfold YearFromDay
  simp only []
  generalize (n + 134774) / 146097 = era at *
  generalize (n + 134774) % 146097 = doe at *
  generalize hc : min (doe / 36524) 3 = c
  generalize hq : min ((doe - c * 36524) / 1461) 24 = q
  generalize hyy : min ((doe - c * 36524 - q * 1461) / 365) 3 = yy
  have hc0 : 0 ≤ c ∧ c ≤ 3 := by omega
  have hq0 : 0 ≤ q ∧ q ≤ 24 := by omega
  have hy0 : 0 ≤ yy ∧ yy ≤ 3 := by omega
  rw [DayFromYear_succ, DayFromYear_cycle era c q yy hc0.1 hc0.2 hq0.1 hq0.2 hy0.1 hy0.2]
  constructor
  · omega
  · unfold DaysInYear
    split_ifs <;> omega

theorem loopBound_step (d endD : Int) (h : d ≤ endD) :
    loopBound d endD = loopBound (d + msPerDay) endD + 1 := by
  unfold loopBound msPerDay
  omega

theorem loopBound_of_gt (d endD : Int) (h : ¬ d ≤ endD) : loopBound d endD = 0 := by
  unfold loopBound msPerDay
  omega

theorem windowDays_succ (d : Int) (n : Nat) :
    windowDays d (n + 1) = d :: windowDays (d + msPerDay) n := by
  unfold windowDays
  rw [List.range_succ_eq_map, List.map_cons, List.map_map]
  congr 1
  · simp
  · apply List.map_congr_left
    intro i _
    simp only [Function.comp, Nat.succ_eq_add_one, Int.ofNat_eq_coe, Nat.cast_add, Nat.cast_one]
    ring

/-- The bound on the iterations of the `for` loop is never reached early: with
`loopBound` iterations or more, the loop enters exactly the instants from `d`
on, one day apart, that are not after `endD`, and stops because `d <= end`
fails. -/
theorem initDates_eq_enterDays {α : Type} [Zero α] (fuel : Nat) (d endD : Int) (m : DateMap α)
    (h : loopBound d endD ≤ fuel) :
    initDates fuel d endD m = enterDays m (windowDays d (loopBound d endD)) := by
  induction fuel generalizing d m with
  | zero =>
    have h0 : loopBound d endD = 0 := Nat.le_zero.mp h
    rw [h0]
    rfl
  | succ n ih =>
    unfold initDates
    by_cases hle : d ≤ endD
    · rw [if_pos hle]
      have hstep := loopBound_step d endD hle
      have hmove : setDate d (getDate d + 1) = d + msPerDay := by
        rw [setDate_getDate_add, one_mul]
      rw [hmove, ih (d + msPerDay) _ (by omega), hstep, windowDays_succ]
      rfl
    · rw [if_neg hle, loopBound_of_gt d endD hle]
      rfl

/-- More iterations than `loopBound` change nothing. -/
theorem initDates_fuel_irrelevant {α : Type} [Zero α] (extra : Nat) (d endD : Int)
    (m : DateMap α) :
    initDates (loopBound d endD + extra) d endD m = initDates (loopBound d endD) d endD m := by
  rw [initDates_eq_enterDays _ d endD m (Nat.le_add_right _ _),
    initDates_eq_enterDays _ d endD m (Nat.le_refl _)]

/-- The day of the month depends on the day only. -/
theorem getDate_congr (a b : Int) (h : Day a = Day b) : getDate a = getDate b := by
  unfold getDate DateFromTime MonthFromTime DayWithinYear InLeapYear YearFromTime
  rw [h]

/-- When both `new Date()` give the same instant `t`, the loop enters the 30
instants from `t` minus 29 days to `t`, one day apart. -/
theorem initDates_same_instant {α : Type} [Zero α] (t : Int) :
    initDates (loopBound (setDate t (getDate t - 29)) t) (setDate t (getDate t - 29)) t
        ([] : DateMap α) =
      enterDays [] (windowDays (t - 29 * msPerDay) 30) := by
  have hstart : setDate t (getDate t - 29) = t - 29 * msPerDay := by
    have := setDate_getDate_add t (-29)
    rw [show getDate t + -29 = getDate t - 29 from by ring] at this
    rw [this]; ring
  rw [hstart, initDates_eq_enterDays _ _ _ _ (Nat.le_refl _)]
  have hb : loopBound (t - 29 * msPerDay) t = 30 := by
    unfold loopBound msPerDay
    omega
  rw [hb]

/-- When the second `new Date()` is later than the first, on the same day, the
loop enters 29 instants only, the last of them on the day before `endNow`. -/
theorem initDates_tick {α : Type} [Zero α] (endNow startNow : Int) (hlater : endNow < startNow)
    (hday : Day startNow = Day endNow) :
    initDates (loopBound (setDate startNow (getDate endNow - 29)) endNow)
        (setDate startNow (getDate endNow - 29)) endNow ([] : DateMap α) =
      enterDays [] (windowDays (startNow - 29 * msPerDay) 29) := by
  have hstart : setDate startNow (getDate endNow - 29) = startNow - 29 * msPerDay := by
    have := setDate_getDate_add startNow (-29)
    rw [show getDate startNow + -29 = getDate startNow - 29 from by ring,
      getDate_congr startNow endNow hday] at this
    rw [this]; ring
  rw [hstart, initDates_eq_enterDays _ _ _ _ (Nat.le_refl _)]
  have hb : loopBound (startNow - 29 * msPerDay) endNow = 29 := by
    unfold Day msPerDay at hday
    unfold loopBound msPerDay
    omega
  rw [hb]

/-! ## Facts about the map of totals -/

theorem DateMap.get_set {α : Type} (m : DateMap α) (k : String) (v : α) (k2 : String) :
    (m.set k v).get k2 = if k = k2 then some v else m.get k2 := by
  induction m with
  | nil => simp [DateMap.set, DateMap.get]
  | cons e rest ih =>
    obtain ⟨k1, v1⟩ := e
    by_cases h1 : k1 = k
    · subst h1
      by_cases h2 : k1 = k2 <;> simp [DateMap.set, DateMap.get, h2]
    · by_cases h2 : k1 = k2
      · subst h2
        have h3 : ¬ k = k1 := fun h => h1 h.symm
        simp [DateMap.set, DateMap.get, h1, h3]
      · simp [DateMap.set, DateMap.get, h1, h2, ih]

theorem DateMap.has_eq_isSome {α : Type} (m : DateMap α) (k : String) :
    m.has k = (m.get k).isSome := by
  induction m with
  | nil => simp [DateMap.has, DateMap.get]
  | cons e rest ih =>
    obtain ⟨k1, v1⟩ := e
    by_cases h1 : k1 = k
    · simp [DateMap.has, DateMap.get, h1]
    · have : DateMap.has rest k = (DateMap.get rest k).isSome := ih
      simp only [DateMap.has] at this
      simp [DateMap.has, DateMap.get, h1, this]

theorem DateMap.get_isSome_iff {α : Type} (m : DateMap α) (k : String) :
    (m.get k).isSome = true ↔ k ∈ m.keys := by
  induction m with
  | nil => simp [DateMap.get, DateMap.keys]
  | cons e rest ih =>
    obtain ⟨k1, v1⟩ := e
    by_cases h1 : k1 = k
    · simp [DateMap.get, DateMap.keys, h1]
    · have h2 : ¬ k = k1 := fun h => h1 h.symm
      simp only [DateMap.keys] at ih
      simp [DateMap.get, DateMap.keys, h1, h2, ih]

theorem DateMap.keys_set {α : Type} (m : DateMap α) (k : String) (v : α) :
    (m.set k v).keys = if k ∈ m.keys then m.keys else m.keys ++ [k] := by
  induction m with
  | nil => simp [DateMap.set, DateMap.keys]
  | cons e rest ih =>
    obtain ⟨k1, v1⟩ := e
    by_cases h1 : k1 = k
    · simp [DateMap.set, DateMap.keys, h1]
    · have h2 : ¬ k = k1 := fun h => h1 h.symm
      simp only [DateMap.keys] at ih
      by_cases h3 : k ∈ List.map Prod.fst rest
      · simp [DateMap.set, DateMap.keys, h1, h2, h3, ih]
      · simp [DateMap.set, DateMap.keys, h1, h2, h3, ih]

theorem addDonation_keys {α : Type} [Add α] (m : DateMap α) (d : Donation α) :
    (addDonation m d).keys = m.keys := by
  unfold addDonation
  by_cases hh : m.has (splitT0 d.date) = true
  · have hs : (m.get (splitT0 d.date)).isSome = true := by
      rw [← DateMap.has_eq_isSome]; exact hh
    obtain ⟨v, hv⟩ := Option.isSome_iff_exists.mp hs
    have hmem : splitT0 d.date ∈ m.keys := (DateMap.get_isSome_iff m _).mp hs
    simp [hh, hv, DateMap.keys_set, hmem]
  · simp [hh]

theorem addDonation_get {α : Type} [Add α] (m : DateMap α) (d : Donation α) (k : String) :
    (addDonation m d).get k =
      if splitT0 d.date = k then (m.get k).map (fun v => v + d.amount) else m.get k := by
  unfold addDonation
  by_cases hh : m.has (splitT0 d.date) = true
  · have hs : (m.get (splitT0 d.date)).isSome = true := by
      rw [← DateMap.has_eq_isSome]; exact hh
    obtain ⟨v, hv⟩ := Option.isSome_iff_exists.mp hs
    by_cases hk : splitT0 d.date = k
    · subst hk
      simp [hh, hv, DateMap.get_set]
    · simp [hh, hv, DateMap.get_set, hk]
  · have hs : m.get (splitT0 d.date) = none := by
      have := DateMap.has_eq_isSome m (splitT0 d.date)
      cases hg : m.get (splitT0 d.date) with
      | none => rfl
      | some v => rw [hg] at this; simp at this; exact absurd this hh
    by_cases hk : splitT0 d.date = k
    · subst hk
      simp [hh, hs]
    · simp [hh, hk]

theorem foldl_addDonation_keys {α : Type} [Add α] (ds : List (Donation α)) (m : DateMap α) :
    (ds.foldl addDonation m).keys = m.keys := by
  induction ds generalizing m with
  | nil => rfl
  | cons d rest ih => rw [List.foldl_cons, ih, addDonation_keys]

theorem foldl_addDonation_get {α : Type} [Add α] (ds : List (Donation α)) (m : DateMap α)
    (k : String) :
    (ds.foldl addDonation m).get k =
      (m.get k).map (fun v =>
        ((ds.filter (fun d => splitT0 d.date = k)).map Donation.amount).foldl
          (fun x y => x + y) v) := by
  induction ds generalizing m with
  | nil => simp
  | cons d rest ih =>
    rw [List.foldl_cons, ih, addDonation_get]
    by_cases hk : splitT0 d.date = k
    · cases hg : m.get k <;> simp [hk, hg]
    · simp [hk]

/-- Every total that the `for` loop leaves in the map is 0. -/
theorem initDates_get_zero {α : Type} [Zero α] (fuel : Nat) (d endD : Int) (m : DateMap α)
    (hm : ∀ k v, m.get k = some v → v = 0) :
    ∀ k v, (initDates fuel d endD m).get k = some v → v = 0 := by
  induction fuel generalizing d m with
  | zero => exact hm
  | succ n ih =>
    unfold initDates
    by_cases hle : d ≤ endD
    · rw [if_pos hle]
      apply ih
      intro k v hkv
      rw [DateMap.get_set] at hkv
      by_cases h : formatDate d = k
      · rw [if_pos h] at hkv
        exact (Option.some.inj hkv).symm
      · rw [if_neg h] at hkv
        exact hm k v hkv
    · rw [if_neg hle]
      exact hm

/-- The keys that the `for` loop enters do not depend on the type of the totals. -/
theorem initDates_keys_congr {α β : Type} [Zero α] [Zero β] (fuel : Nat) (d endD : Int)
    (m : DateMap α) (m2 : DateMap β) (h : m.keys = m2.keys) :
    (initDates fuel d endD m).keys = (initDates fuel d endD m2).keys := by
  induction fuel generalizing d m m2 with
  | zero => exact h
  | succ n ih =>
    unfold initDates
    by_cases hle : d ≤ endD
    · rw [if_pos hle, if_pos hle]
      apply ih
      rw [DateMap.keys_set, DateMap.keys_set, h]
    · rw [if_neg hle, if_neg hle]
      exact h

theorem sortStrings_perm (l : List String) : (sortStrings l).Perm l :=
  List.perm_insertionSort _ l

theorem DateMap.keys_set_length {α : Type} (m : DateMap α) (k : String) (v : α) :
    (m.set k v).keys.length ≤ m.keys.length + 1 := by
  rw [DateMap.keys_set]
  split
  · omega
  · simp

theorem enterDays_keys_length {α : Type} [Zero α] (days : List Int) (m : DateMap α) :
    (enterDays m days).keys.length ≤ m.keys.length + days.length := by
  induction days generalizing m with
  | nil => simp [enterDays]
  | cons t rest ih =>
    have h1 := ih (m.set (formatDate t) 0)
    have h2 := DateMap.keys_set_length m (formatDate t) (0 : α)
    simp only [enterDays, List.foldl_cons, List.length_cons] at h1 ⊢
    omega

theorem windowDays_length (d : Int) (n : Nat) : (windowDays d n).length = n := by
  simp [windowDays]

/-- Whenever the second `new Date()` is later than the first, on the same day,
the chart has at most 29 dates. -/
theorem chartDates_tick_length (endNow startNow : Int) (hlater : endNow < startNow)
    (hday : Day startNow = Day endNow) : (chartDates endNow startNow).length ≤ 29 := by
  unfold chartDates
  simp only []
  rw [(sortStrings_perm _).length_eq, initDates_tick endNow startNow hlater hday]
  have h := enterDays_keys_length (windowDays (startNow - 29 * msPerDay) 29) ([] : DateMap Nat)
  rw [windowDays_length] at h
  simpa [DateMap.keys] using h

/-- The labels are the labels of the chart dates, and the value of each chart
date is the sum, from left to right, of the amounts of the contributions whose
truncated date is that date. -/
theorem prepareChartData_eq {α : Type} [Zero α] [Add α] (toLabel : String → String)
    (endNow startNow : Int) (donations : List (Donation α)) :
    (prepareChartData toLabel endNow startNow donations).labels =
        (chartDates endNow startNow).map toLabel ∧
    (prepareChartData toLabel endNow startNow donations).values =
        (chartDates endNow startNow).map (fun k => some (totalOn k donations)) := by
  have hkeys : ∀ m0 : DateMap α,
      (donations.foldl addDonation m0).keys = m0.keys := foldl_addDonation_keys donations
  have hcongr := initDates_keys_congr
    (loopBound (setDate startNow (getDate endNow - 29)) endNow)
    (setDate startNow (getDate endNow - 29)) endNow ([] : DateMap α) ([] : DateMap Nat) rfl
  constructor
  · simp only [prepareChartData, chartDates, hkeys, hcongr]
  · simp only [prepareChartData, chartDates, hkeys, hcongr]
    apply List.map_congr_left
    intro k hk
    have hk2 : k ∈ (initDates (loopBound (setDate startNow (getDate endNow - 29)) endNow)
        (setDate startNow (getDate endNow - 29)) endNow ([] : DateMap α)).keys := by
      rw [hcongr]
      exact (sortStrings_perm _).mem_iff.mp hk
    have hsome := (DateMap.get_isSome_iff _ k).mpr hk2
    obtain ⟨v, hv⟩ := Option.isSome_iff_exists.mp hsome
    have hv0 : v = 0 := initDates_get_zero _ _ _ _ (by intro k v h; simp [DateMap.get] at h) k v hv
    subst hv0
    rw [foldl_addDonation_get, hv]
    rfl


/-! ## The days of the chart -/

theorem date_in_month (dwy leap : Int) (h0 : 0 ≤ dwy) (h1 : dwy < 365 + leap)
    (hl : leap = 0 ∨ leap = 1) :
    1 ≤ dwy - monthStart (monthOfDayWithinYear dwy leap) leap + 1 ∧
    dwy - monthStart (monthOfDayWithinYear dwy leap) leap + 1 ≤ 31 := by
  unfold monthOfDayWithinYear
  by_cases c0 : dwy < 31
  · simp only [c0, if_true, if_false]
    norm_num [monthStart]
    omega
  by_cases c1 : dwy < 59 + leap
  · simp only [c0, c1, if_true, if_false]
    norm_num [monthStart]
    omega
  by_cases c2 : dwy < 90 + leap
  · simp only [c0, c1, c2, if_true, if_false]
    norm_num [monthStart]
    omega
  by_cases c3 : dwy < 120 + leap
  · simp only [c0, c1, c2, c3, if_true, if_false]
    norm_num [monthStart]
    omega
  by_cases c4 : dwy < 151 + leap
  · simp only [c0, c1, c2, c3, c4, if_true, if_false]
    norm_num [monthStart]
    omega
  by_cases c5 : dwy < 181 + leap
  · simp only [c0, c1, c2, c3, c4, c5, if_true, if_false]
    norm_num [monthStart]
    omega
  by_cases c6 : dwy < 212 + leap
  · simp only [c0, c1, c2, c3, c4, c5, c6, if_true, if_false]
    norm_num [monthStart]
    omega
  by_cases c7 : dwy < 243 + leap
  · simp only [c0, c1, c2, c3, c4, c5, c6, c7, if_true, if_false]
    norm_num [monthStart]
    omega
  by_cases c8 : dwy < 273 + leap
  · simp only [c0, c1, c2, c3, c4, c5, c6, c7, c8, if_true, if_false]
    norm_num [monthStart]
    omega
  by_cases c9 : dwy < 304 + leap
  · simp only [c0, c1, c2, c3, c4, c5, c6, c7, c8, c9, if_true, if_false]
    norm_num [monthStart]
    omega
  by_cases c10 : dwy < 334 + leap
  · simp only [c0, c1, c2, c3, c4, c5, c6, c7, c8, c9, c10, if_true, if_false]
    norm_num [monthStart]
    omega
  simp only [c0, c1, c2, c3, c4, c5, c6, c7, c8, c9, c10, if_false]
  norm_num [monthStart]
  omega


theorem toDigitsCore_eq (fuel n : Nat) (ds : List Char) (h : n < fuel) :
    Nat.toDigitsCore 10 fuel n ds = Nat.toDigits 10 n ++ ds := by
  induction fuel using Nat.strong_induction_on generalizing n ds with
  | _ fuel ih =>
    cases fuel with
    | zero => omega
    | succ f =>
      unfold Nat.toDigits
      simp only [Nat.toDigitsCore]
      by_cases h0 : n / 10 = 0
      · simp [h0]
      · have hlt : n / 10 < n := Nat.div_lt_self (by omega) (by norm_num)
        simp only [h0, if_false]
        rw [ih f (Nat.lt_succ_self f) (n / 10) _ (by omega)]
        cases n with
        | zero => simp at h0
        | succ m =>
          rw [ih (m + 1) (by omega) ((m + 1) / 10) _ (by omega)]
          simp

theorem toDigits_small (n : Nat) (h : n < 10) : Nat.toDigits 10 n = [Nat.digitChar n] := by
  unfold Nat.toDigits
  simp only [Nat.toDigitsCore]
  have h0 : n / 10 = 0 := by omega
  have h1 : n % 10 = n := by omega
  simp [h0, h1]

theorem toDigits_big (n : Nat) (h : 10 ≤ n) :
    Nat.toDigits 10 n = Nat.toDigits 10 (n / 10) ++ [Nat.digitChar (n % 10)] := by
  have h0 : n / 10 ≠ 0 := by omega
  conv_lhs => unfold Nat.toDigits
  simp only [Nat.toDigitsCore, h0, if_false]
  rw [toDigitsCore_eq n (n / 10) _ (by omega)]

theorem digitChar_inj (a b : Nat) (ha : a < 10) (hb : b < 10)
    (h : Nat.digitChar a = Nat.digitChar b) : a = b := by
  interval_cases a <;> interval_cases b <;> first | rfl | (exact absurd h (by decide))

theorem toDigits_ne_nil (n : Nat) : Nat.toDigits 10 n ≠ [] := by
  by_cases h : n < 10
  · rw [toDigits_small n h]; simp
  · rw [toDigits_big n (by omega)]; simp

theorem toDigits_inj (a b : Nat) (h : Nat.toDigits 10 a = Nat.toDigits 10 b) : a = b := by
  induction a using Nat.strong_induction_on generalizing b with
  | _ a ih =>
    by_cases ha : a < 10
    · by_cases hb : b < 10
      · rw [toDigits_small a ha, toDigits_small b hb] at h
        exact digitChar_inj a b ha hb (by simpa using h)
      · rw [toDigits_small a ha, toDigits_big b (by omega)] at h
        have hlen := congrArg List.length h
        have hne := toDigits_ne_nil (b / 10)
        have : 0 < (Nat.toDigits 10 (b / 10)).length := List.length_pos.mpr hne
        simp only [List.length_append, List.length_singleton, List.length_cons,
          List.length_nil] at hlen
        omega
    · by_cases hb : b < 10
      · rw [toDigits_big a (by omega), toDigits_small b hb] at h
        have hlen := congrArg List.length h
        have hne := toDigits_ne_nil (a / 10)
        have : 0 < (Nat.toDigits 10 (a / 10)).length := List.length_pos.mpr hne
        simp only [List.length_append, List.length_singleton, List.length_cons,
          List.length_nil] at hlen
        omega
      · rw [toDigits_big a (by omega), toDigits_big b (by omega)] at h
        obtain ⟨h1, h2⟩ := List.append_inj' h rfl
        have hq : a / 10 = b / 10 := ih (a / 10) (by omega) (b / 10) h1
        have hr : a % 10 = b % 10 :=
          digitChar_inj _ _ (Nat.mod_lt _ (by norm_num)) (Nat.mod_lt _ (by norm_num))
            (by simpa using h2)
        omega

theorem toString_int_data (n : Nat) : (toString (n : Int)).data = Nat.toDigits 10 n := by
  rfl

theorem pad2_data (x : Int) (h0 : 0 ≤ x) (h1 : x ≤ 31) :
    (padStart0 2 (toString x)).data =
      [Nat.digitChar (x / 10).toNat, Nat.digitChar (x % 10).toNat] := by
  interval_cases x <;> rfl

theorem leapDays_cases (y : Int) : leapDays y = 0 ∨ leapDays y = 1 := by
  unfold leapDays
  split
  · exact Or.inr rfl
  · exact Or.inl rfl

theorem DaysInYear_eq (y : Int) : DaysInYear y = 365 + leapDays y := by
  unfold leapDays DaysInYear
  split_ifs <;> simp_all

theorem DayWithinYear_range (t : Int) :
    0 ≤ DayWithinYear t ∧ DayWithinYear t < 365 + InLeapYear t := by
  have h := YearFromDay_spec (Day t)
  rw [DayFromYear_succ, DaysInYear_eq] at h
  unfold DayWithinYear InLeapYear YearFromTime
  omega

theorem DateFromTime_range (t : Int) : 1 ≤ DateFromTime t ∧ DateFromTime t ≤ 31 := by
  have h := DayWithinYear_range t
  exact date_in_month (DayWithinYear t) (InLeapYear t) h.1 h.2 (leapDays_cases _)

/-- The day number is determined by the year, the month and the day of the month. -/
theorem Day_eq_of_civil (t : Int) :
    Day t = DayFromYear (YearFromTime t) +
      monthStart (MonthFromTime t) (leapDays (YearFromTime t)) + DateFromTime t - 1 := by
  unfold DateFromTime DayWithinYear InLeapYear
  ring

theorem YearFromTime_nonneg (t : Int) (h : 0 ≤ t) : 1970 ≤ YearFromTime t := by
  have hd : 0 ≤ Day t := Int.ediv_nonneg h (by unfold msPerDay; norm_num)
  have hs := (YearFromDay_spec (Day t)).2
  unfold YearFromTime
  unfold DayFromYear at hs
  omega

theorem formatDate_data (t : Int) (hy : 0 ≤ YearFromTime t) :
    (formatDate t).data = Nat.toDigits 10 (YearFromTime t).toNat ++
      ['-', Nat.digitChar ((MonthFromTime t + 1) / 10).toNat,
        Nat.digitChar ((MonthFromTime t + 1) % 10).toNat,
       '-', Nat.digitChar (DateFromTime t / 10).toNat,
        Nat.digitChar (DateFromTime t % 10).toNat] := by
  have hm := monthOfDayWithinYear_range (DayWithinYear t) (InLeapYear t)
  have hd := DateFromTime_range t
  have hyear : (toString (YearFromTime t)).data = Nat.toDigits 10 (YearFromTime t).toNat := by
    conv_lhs => rw [← Int.toNat_of_nonneg hy]
    exact toString_int_data _
  unfold formatDate getFullYear getMonth getDate
  simp only [String.data_append, hyear,
    pad2_data (MonthFromTime t + 1) (by unfold MonthFromTime; omega) (by unfold MonthFromTime; omega),
    pad2_data (DateFromTime t) (by omega) hd.2]
  simp

/-- Two instants of years from 0 on with the same `formatDate` lie on the same
day. -/
theorem formatDate_inj (a b : Int) (ha : 0 ≤ YearFromTime a) (hb : 0 ≤ YearFromTime b)
    (h : formatDate a = formatDate b) : Day a = Day b := by
  have hdata := congrArg String.data h
  rw [formatDate_data a ha, formatDate_data b hb] at hdata
  obtain ⟨hy, hrest⟩ := List.append_inj' hdata rfl
  have hma := monthOfDayWithinYear_range (DayWithinYear a) (InLeapYear a)
  have hmb := monthOfDayWithinYear_range (DayWithinYear b) (InLeapYear b)
  have hda := DateFromTime_range a
  have hdb := DateFromTime_range b
  have hyy : YearFromTime a = YearFromTime b := by
    have := toDigits_inj _ _ hy
    omega
  simp only [List.cons.injEq, true_and, and_true] at hrest
  obtain ⟨m1, m2, d1, d2⟩ := hrest
  have hm1 := digitChar_inj _ _ (by unfold MonthFromTime; omega) (by unfold MonthFromTime; omega) m1
  have hm2 := digitChar_inj _ _ (by omega) (by omega) m2
  have hd1 := digitChar_inj _ _ (by omega) (by omega) d1
  have hd2 := digitChar_inj _ _ (by omega) (by omega) d2
  have hmm : MonthFromTime a = MonthFromTime b := by unfold MonthFromTime at *; omega
  have hdd : DateFromTime a = DateFromTime b := by omega
  rw [Day_eq_of_civil a, Day_eq_of_civil b, hyy, hmm, hdd]


theorem Day_add_days (d i : Int) : Day (d + i * msPerDay) = Day d + i := by
  unfold Day
  exact Int.add_mul_ediv_right d i (by unfold msPerDay; norm_num)

/-- Entering instants whose dates are new and pairwise different appends their
dates to the keys, in order. -/
theorem enterDays_keys {α : Type} [Zero α] (days : List Int) (m : DateMap α)
    (h : (m.keys ++ days.map formatDate).Nodup) :
    (enterDays m days).keys = m.keys ++ days.map formatDate := by
  induction days generalizing m with
  | nil => simp [enterDays]
  | cons t rest ih =>
    have hnot : formatDate t ∉ m.keys := by
      intro hmem
      have := List.nodup_append.mp h
      exact this.2.2 hmem (by simp)
    have hkeys : (m.set (formatDate t) 0).keys = m.keys ++ [formatDate t] := by
      rw [DateMap.keys_set, if_neg hnot]
    have hnodup : ((m.set (formatDate t) 0).keys ++ rest.map formatDate).Nodup := by
      rw [hkeys, List.append_assoc]
      simpa using h
    have := ih (m.set (formatDate t) 0) hnodup
    simp only [enterDays, List.foldl_cons] at this ⊢
    rw [this, hkeys, List.append_assoc]
    simp

theorem windowDays_mem (d : Int) (n : Nat) (u : Int) (h : u ∈ windowDays d n) :
    ∃ i : Nat, i < n ∧ u = d + Int.ofNat i * msPerDay := by
  unfold windowDays at h
  obtain ⟨i, hi, rfl⟩ := List.mem_map.mp h
  exact ⟨i, List.mem_range.mp hi, rfl⟩

theorem windowDays_formatDate_nodup (d : Int) (n : Nat) (h : 0 ≤ d) :
    ((windowDays d n).map formatDate).Nodup := by
  unfold windowDays
  rw [List.map_map]
  apply List.Nodup.map_on _ (List.nodup_range n)
  intro i _ j _ hij
  simp only [Function.comp] at hij
  have hpos : ∀ k : Nat, 0 ≤ d + Int.ofNat k * msPerDay := by
    intro k
    have : 0 ≤ Int.ofNat k * msPerDay :=
      mul_nonneg (Int.ofNat_nonneg k) (by unfold msPerDay; norm_num)
    omega
  have hy : ∀ k : Nat, 0 ≤ YearFromTime (d + Int.ofNat k * msPerDay) := by
    intro k
    have := YearFromTime_nonneg _ (hpos k)
    omega
  have hday := formatDate_inj _ _ (hy i) (hy j) hij
  rw [Day_add_days, Day_add_days] at hday
  have : Int.ofNat i = Int.ofNat j := by omega
  exact Int.ofNat.inj this

/-- With both `new Date()` at the same instant `t`, at least 29 days after the
epoch, the chart dates are the dates of the 30 days from `t` minus 29 days to
`t`, each once. -/
theorem chartDates_same_instant (t : Int) (h : 29 * msPerDay ≤ t) :
    (chartDates t t).Perm ((windowDays (t - 29 * msPerDay) 30).map formatDate) := by
  unfold chartDates
  simp only []
  refine (sortStrings_perm _).trans ?_
  rw [initDates_same_instant, enterDays_keys _ _ (by
    simpa [DateMap.keys] using windowDays_formatDate_nodup (t - 29 * msPerDay) 30 (by omega))]
  simp [DateMap.keys]

/-- With the second `new Date()` later than the first, on the same day, the
chart dates are the dates of the 29 days before that day, each once; the date
of the day itself is not among them. -/
theorem chartDates_tick (endNow startNow : Int) (hlater : endNow < startNow)
    (hday : Day startNow = Day endNow) (h : 29 * msPerDay ≤ endNow) :
    (chartDates endNow startNow).Perm
      ((windowDays (startNow - 29 * msPerDay) 29).map formatDate) ∧
    formatDate endNow ∉ chartDates endNow startNow := by
  have hperm : (chartDates endNow startNow).Perm
      ((windowDays (startNow - 29 * msPerDay) 29).map formatDate) := by
    unfold chartDates
    simp only []
    refine (sortStrings_perm _).trans ?_
    rw [initDates_tick endNow startNow hlater hday, enterDays_keys _ _ (by
      simpa [DateMap.keys] using
        windowDays_formatDate_nodup (startNow - 29 * msPerDay) 29 (by omega))]
    simp [DateMap.keys]
  refine ⟨hperm, ?_⟩
  intro hmem
  obtain ⟨u, hu, hfu⟩ := List.mem_map.mp (hperm.mem_iff.mp hmem)
  obtain ⟨i, hi, rfl⟩ := windowDays_mem _ _ _ hu
  have hmul : 0 ≤ Int.ofNat i * msPerDay :=
    mul_nonneg (Int.ofNat_nonneg i) (by unfold msPerDay; norm_num)
  have hy1 := YearFromTime_nonneg (startNow - 29 * msPerDay + Int.ofNat i * msPerDay) (by omega)
  have hy2 := YearFromTime_nonneg endNow (by unfold msPerDay at h; omega)
  have hd := formatDate_inj _ _ (by omega) (by omega) hfu
  rw [Day_add_days] at hd
  have h29 : Day (startNow - 29 * msPerDay) = Day startNow - 29 := by
    have := Day_add_days startNow (-29)
    rw [show startNow + -29 * msPerDay = startNow - 29 * msPerDay from by ring] at this
    rw [this]; ring
  rw [h29, hday] at hd
  have : (Int.ofNat i : Int) < 29 := by
    rw [Int.ofNat_eq_coe]
    omega
  omega

/-- With both `new Date()` at the same instant, the series has exactly 30
entries. -/
theorem prepareChartData_same_instant_length {α : Type} [Zero α] [Add α]
    (toLabel : String → String) (t : Int) (donations : List (Donation α))
    (h : 29 * msPerDay ≤ t) :
    (prepareChartData toLabel t t donations).labels.length = 30 ∧
    (prepareChartData toLabel t t donations).values.length = 30 := by
  obtain ⟨hl, hv⟩ := prepareChartData_eq toLabel t t donations
  have hlen : (chartDates t t).length = 30 := by
    rw [(chartDates_same_instant t h).length_eq, List.length_map, windowDays_length]
  rw [hl, hv, List.length_map, List.length_map]
  exact ⟨hlen, hlen⟩

/-- With the second `new Date()` later than the first, on the same day, the
series has exactly 29 entries and the date of that day is not among its dates. -/
theorem prepareChartData_tick_length {α : Type} [Zero α] [Add α]
    (toLabel : String → String) (endNow startNow : Int) (donations : List (Donation α))
    (hlater : endNow < startNow) (hday : Day startNow = Day endNow)
    (h : 29 * msPerDay ≤ endNow) :
    (prepareChartData toLabel endNow startNow donations).labels.length = 29 ∧
    (prepareChartData toLabel endNow startNow donations).values.length = 29 ∧
    formatDate endNow ∉ chartDates endNow startNow := by
  obtain ⟨hl, hv⟩ := prepareChartData_eq toLabel endNow startNow donations
  obtain ⟨hperm, hnot⟩ := chartDates_tick endNow startNow hlater hday h
  have hlen : (chartDates endNow startNow).length = 29 := by
    rw [hperm.length_eq, List.length_map, windowDays_length]
  rw [hl, hv, List.length_map, List.length_map]
  exact ⟨hlen, hlen, hnot⟩

theorem DayFromYear_mono (y1 y2 : Int) (h : y1 ≤ y2) : DayFromYear y1 ≤ DayFromYear y2 := by
  unfold DayFromYear
  omega

theorem YearFromDay_mono (n1 n2 : Int) (h : n1 ≤ n2) : YearFromDay n1 ≤ YearFromDay n2 := by
  by_contra hc
  have h1 := (YearFromDay_spec n1).1
  have h2 := (YearFromDay_spec n2).2
  have h3 := DayFromYear_mono (YearFromDay n2 + 1) (YearFromDay n1) (by omega)
  omega

theorem ite_mono_step {x y b k k2 fx fy : Int} (hxy : x ≤ y) (hk : k ≤ k2)
    (h : fx ≤ fy ∧ k2 ≤ fy) :
    (if x < b then k else fx) ≤ (if y < b then k else fy) ∧
    k ≤ (if y < b then k else fy) := by
  by_cases hy : y < b
  · have hx : x < b := by omega
    rw [if_pos hx, if_pos hy]
    exact ⟨le_refl k, le_refl k⟩
  · rw [if_neg hy]
    by_cases hx : x < b
    · rw [if_pos hx]
      exact ⟨by omega, by omega⟩
    · rw [if_neg hx]
      exact ⟨h.1, by omega⟩

theorem monthOfDayWithinYear_mono (x y leap : Int) (h : x ≤ y) :
    monthOfDayWithinYear x leap ≤ monthOfDayWithinYear y leap := by
  unfold monthOfDayWithinYear
  exact (ite_mono_step h (by norm_num)
    (ite_mono_step h (by norm_num)
    (ite_mono_step h (by norm_num)
    (ite_mono_step h (by norm_num)
    (ite_mono_step h (by norm_num)
    (ite_mono_step h (by norm_num)
    (ite_mono_step h (by norm_num)
    (ite_mono_step h (by norm_num)
    (ite_mono_step h (by norm_num)
    (ite_mono_step h (by norm_num)
    (ite_mono_step h (by norm_num)
    ⟨le_refl _, le_refl _⟩))))))))))).1

/-- Of two instants, the one on the earlier day has the earlier year, or the
same year and the earlier month, or the same month and the earlier day of the
month. -/
theorem civil_lt_of_Day_lt (a b : Int) (h : Day a < Day b) :
    YearFromTime a < YearFromTime b ∨
    (YearFromTime a = YearFromTime b ∧
      (MonthFromTime a < MonthFromTime b ∨
        (MonthFromTime a = MonthFromTime b ∧ DateFromTime a < DateFromTime b))) := by
  have hy := YearFromDay_mono (Day a) (Day b) (by omega)
  by_cases hyy : YearFromTime a = YearFromTime b
  · right
    refine ⟨hyy, ?_⟩
    have hdwy : DayWithinYear a < DayWithinYear b := by
      unfold DayWithinYear
      rw [hyy]
      omega
    have hleap : InLeapYear a = InLeapYear b := by unfold InLeapYear; rw [hyy]
    have hm : MonthFromTime a ≤ MonthFromTime b := by
      unfold MonthFromTime
      rw [hleap]
      exact monthOfDayWithinYear_mono _ _ _ (by omega)
    by_cases hmm : MonthFromTime a = MonthFromTime b
    · right
      refine ⟨hmm, ?_⟩
      unfold DateFromTime
      rw [hmm, hleap]
      omega
    · left
      omega
  · left
    unfold YearFromTime at hyy ⊢
    omega

theorem digitChar_toNat (i : Nat) (h : i < 10) : (Nat.digitChar i).toNat = 48 + i := by
  interval_cases i <;> rfl

theorem codeUnitsLe_of_lt (i j : Nat) (hi : i < 10) (hj : j < 10) (h : i < j)
    (as bs : List Char) :
    codeUnitsLe (Nat.digitChar i :: as) (Nat.digitChar j :: bs) = true := by
  unfold codeUnitsLe
  rw [digitChar_toNat i hi, digitChar_toNat j hj]
  simp [h]

theorem codeUnitsLe_cons_same (c : Char) (as bs : List Char) :
    codeUnitsLe (c :: as) (c :: bs) = codeUnitsLe as bs := by
  conv_lhs => unfold codeUnitsLe
  simp

theorem two_digits_lt (m1 m2 : Nat) (h1 : m1 < 100) (h2 : m2 < 100) (h : m1 < m2)
    (as bs : List Char) :
    codeUnitsLe (Nat.digitChar (m1 / 10) :: Nat.digitChar (m1 % 10) :: as)
      (Nat.digitChar (m2 / 10) :: Nat.digitChar (m2 % 10) :: bs) = true := by
  by_cases e : m1 / 10 = m2 / 10
  · rw [e, codeUnitsLe_cons_same]
    exact codeUnitsLe_of_lt _ _ (by omega) (by omega) (by omega) _ _
  · exact codeUnitsLe_of_lt _ _ (by omega) (by omega) (by omega) _ _

theorem four_digits_lt (y1 y2 : Nat) (h1 : y1 < 10000) (h2 : y2 < 10000) (h : y1 < y2)
    (as bs : List Char) :
    codeUnitsLe
      (Nat.digitChar (y1 / 1000) :: Nat.digitChar (y1 / 100 % 10) ::
        Nat.digitChar (y1 / 10 % 10) :: Nat.digitChar (y1 % 10) :: as)
      (Nat.digitChar (y2 / 1000) :: Nat.digitChar (y2 / 100 % 10) ::
        Nat.digitChar (y2 / 10 % 10) :: Nat.digitChar (y2 % 10) :: bs) = true := by
  by_cases e3 : y1 / 1000 = y2 / 1000
  · rw [e3, codeUnitsLe_cons_same]
    by_cases e2 : y1 / 100 % 10 = y2 / 100 % 10
    · rw [e2, codeUnitsLe_cons_same]
      by_cases e1 : y1 / 10 % 10 = y2 / 10 % 10
      · rw [e1, codeUnitsLe_cons_same]
        exact codeUnitsLe_of_lt _ _ (by omega) (by omega) (by omega) _ _
      · exact codeUnitsLe_of_lt _ _ (by omega) (by omega) (by omega) _ _
    · exact codeUnitsLe_of_lt _ _ (by omega) (by omega) (by omega) _ _
  · exact codeUnitsLe_of_lt _ _ (by omega) (by omega) (by omega) _ _

theorem dateKey_le (y1 m1 d1 y2 m2 d2 : Nat) (hy1 : y1 < 10000) (hy2 : y2 < 10000)
    (hm1 : m1 < 100) (hm2 : m2 < 100) (hd1 : d1 < 100) (hd2 : d2 < 100)
    (h : y1 < y2 ∨ (y1 = y2 ∧ (m1 < m2 ∨ (m1 = m2 ∧ d1 < d2)))) :
    codeUnitsLe (dateKey y1 m1 d1) (dateKey y2 m2 d2) = true := by
  unfold dateKey
  rcases h with hy | ⟨rfl, hm | ⟨rfl, hd⟩⟩
  · exact four_digits_lt y1 y2 hy1 hy2 hy _ _
  · simp only [codeUnitsLe_cons_same]
    exact two_digits_lt m1 m2 hm1 hm2 hm _ _
  · simp only [codeUnitsLe_cons_same]
    exact two_digits_lt d1 d2 hd1 hd2 hd _ _

theorem toDigits_four (n : Nat) (h1 : 1000 ≤ n) (h2 : n < 10000) :
    Nat.toDigits 10 n =
      [Nat.digitChar (n / 1000), Nat.digitChar (n / 100 % 10), Nat.digitChar (n / 10 % 10),
       Nat.digitChar (n % 10)] := by
  rw [toDigits_big n (by omega), toDigits_big (n / 10) (by omega),
    toDigits_big (n / 10 / 10) (by omega), toDigits_small (n / 10 / 10 / 10) (by omega)]
  have e1 : n / 10 / 10 / 10 = n / 1000 := by omega
  have e2 : n / 10 / 10 % 10 = n / 100 % 10 := by omega
  rw [e1, e2]
  rfl

theorem formatDate_dateKey (t : Int) (h1 : 1000 ≤ YearFromTime t) (h2 : YearFromTime t ≤ 9999) :
    (formatDate t).data = dateKey (YearFromTime t).toNat (MonthFromTime t + 1).toNat
      (DateFromTime t).toNat := by
  have hm := monthOfDayWithinYear_range (DayWithinYear t) (InLeapYear t)
  have hd := DateFromTime_range t
  rw [formatDate_data t (by omega), toDigits_four _ (by omega) (by omega)]
  unfold dateKey
  have e1 : ((MonthFromTime t + 1) / 10).toNat = (MonthFromTime t + 1).toNat / 10 := by
    unfold MonthFromTime; omega
  have e2 : ((MonthFromTime t + 1) % 10).toNat = (MonthFromTime t + 1).toNat % 10 := by
    unfold MonthFromTime; omega
  have e3 : (DateFromTime t / 10).toNat = (DateFromTime t).toNat / 10 := by omega
  have e4 : (DateFromTime t % 10).toNat = (DateFromTime t).toNat % 10 := by omega
  rw [e1, e2, e3, e4]
  rfl

/-- For years of four digits, the date of an earlier day sorts before the date
of a later day. -/
theorem formatDate_le_of_Day_lt (a b : Int) (ha : 1000 ≤ YearFromTime a)
    (hb : YearFromTime b ≤ 9999) (h : Day a < Day b) :
    codeUnitsLe (formatDate a).data (formatDate b).data = true := by
  have hyab : YearFromTime a ≤ YearFromTime b := YearFromDay_mono _ _ (by omega)
  have hma := monthOfDayWithinYear_range (DayWithinYear a) (InLeapYear a)
  have hmb := monthOfDayWithinYear_range (DayWithinYear b) (InLeapYear b)
  have hda := DateFromTime_range a
  have hdb := DateFromTime_range b
  rw [formatDate_dateKey a ha (by omega), formatDate_dateKey b (by omega) hb]
  apply dateKey_le
  · omega
  · omega
  · unfold MonthFromTime; omega
  · unfold MonthFromTime; omega
  · omega
  · omega
  · rcases civil_lt_of_Day_lt a b h with hy | ⟨hy, hm | ⟨hm, hd⟩⟩
    · left; omega
    · right; exact ⟨by omega, Or.inl (by unfold MonthFromTime at *; omega)⟩
    · right; exact ⟨by omega, Or.inr ⟨by rw [hm], by omega⟩⟩


theorem Day_sub_29 (t : Int) : Day (t - 29 * msPerDay) = Day t - 29 := by
  have := Day_add_days t (-29)
  rw [show t + -29 * msPerDay = t - 29 * msPerDay from by ring] at this
  rw [this]; ring

/-- For years of four digits, the dates of consecutive days are already in the
order of the default sort. -/
theorem windowDays_sorted (d : Int) (n : Nat) (h1 : 0 ≤ d)
    (h2 : ∀ i : Nat, i < n → YearFromTime (d + Int.ofNat i * msPerDay) ≤ 9999) :
    List.Sorted (fun a b : String => codeUnitsLe a.data b.data = true)
      ((windowDays d n).map formatDate) := by
  unfold windowDays List.Sorted
  rw [List.map_map, List.pairwise_map]
  refine List.Pairwise.imp_of_mem ?_ (List.pairwise_lt_range n)
  intro i j hi hj hij
  have hj2 := List.mem_range.mp hj
  have hmul : 0 ≤ Int.ofNat i * msPerDay :=
    mul_nonneg (Int.ofNat_nonneg i) (by unfold msPerDay; norm_num)
  have hyi := YearFromTime_nonneg (d + Int.ofNat i * msPerDay) (by omega)
  simp only [Function.comp]
  apply formatDate_le_of_Day_lt _ _ (by omega) (h2 j hj2)
  rw [Day_add_days, Day_add_days]
  have : (Int.ofNat i : Int) < Int.ofNat j := by
    rw [Int.ofNat_eq_coe, Int.ofNat_eq_coe]; omega
  omega

/-- With both `new Date()` at the same instant `t`, between 29 days after the
epoch and the end of year 9999, the chart dates are the dates of the 30 days
from `t` minus 29 days to `t`, in this order. -/
theorem chartDates_same_instant_eq (t : Int) (h1 : 29 * msPerDay ≤ t)
    (h2 : YearFromTime t ≤ 9999) :
    chartDates t t = (windowDays (t - 29 * msPerDay) 30).map formatDate := by
  have hsorted := windowDays_sorted (t - 29 * msPerDay) 30 (by omega) (by
    intro i hi
    have hle : Day (t - 29 * msPerDay + Int.ofNat i * msPerDay) ≤ Day t := by
      rw [Day_add_days, Day_sub_29, Int.ofNat_eq_coe]; omega
    exact le_trans (YearFromDay_mono _ _ hle) h2)
  unfold chartDates
  simp only []
  rw [initDates_same_instant, enterDays_keys _ _ (by
    simpa [DateMap.keys] using windowDays_formatDate_nodup (t - 29 * msPerDay) 30 (by omega))]
  simp only [DateMap.keys, List.map_nil, List.nil_append]
  exact List.Sorted.insertionSort_eq hsorted

/-- With the second `new Date()` later than the first, on the same day, the
chart dates are the dates of the 29 days before that day, in this order. -/
theorem chartDates_tick_eq (endNow startNow : Int) (hlater : endNow < startNow)
    (hday : Day startNow = Day endNow) (h1 : 29 * msPerDay ≤ endNow)
    (h2 : YearFromTime endNow ≤ 9999) :
    chartDates endNow startNow = (windowDays (startNow - 29 * msPerDay) 29).map formatDate := by
  have hsorted := windowDays_sorted (startNow - 29 * msPerDay) 29 (by omega) (by
    intro i hi
    have hle : Day (startNow - 29 * msPerDay + Int.ofNat i * msPerDay) ≤ Day endNow := by
      rw [Day_add_days, Day_sub_29, Int.ofNat_eq_coe, hday]; omega
    exact le_trans (YearFromDay_mono _ _ hle) h2)
  unfold chartDates
  simp only []
  rw [initDates_tick endNow startNow hlater hday, enterDays_keys _ _ (by
    simpa [DateMap.keys] using
      windowDays_formatDate_nodup (startNow - 29 * msPerDay) 29 (by omega))]
  simp only [DateMap.keys, List.map_nil, List.nil_append]
  exact List.Sorted.insertionSort_eq hsorted

/-- What `prepareChartData` returns when both `new Date()` give the same
instant `t` (between 29 days after the epoch and the end of year 9999): one
entry for each of the 30 days from `t` minus 29 days to `t`, in this order,
with the label of the date of the day and the sum of the contributions of that
date. -/
theorem prepareChartData_same_instant {α : Type} [Zero α] [Add α]
    (toLabel : String → String) (t : Int) (donations : List (Donation α))
    (h1 : 29 * msPerDay ≤ t) (h2 : YearFromTime t ≤ 9999) :
    (prepareChartData toLabel t t donations).labels =
      (windowDays (t - 29 * msPerDay) 30).map (fun u => toLabel (formatDate u)) ∧
    (prepareChartData toLabel t t donations).values =
      (windowDays (t - 29 * msPerDay) 30).map
        (fun u => some (totalOn (formatDate u) donations)) := by
  obtain ⟨hl, hv⟩ := prepareChartData_eq toLabel t t donations
  rw [hl, hv, chartDates_same_instant_eq t h1 h2, List.map_map, List.map_map]
  exact ⟨rfl, rfl⟩

/-- What `prepareChartData` returns when the second `new Date()` is later than
the first, on the same day: one entry for each of the 29 days before that day,
and none for the day itself. -/
theorem prepareChartData_tick {α : Type} [Zero α] [Add α]
    (toLabel : String → String) (endNow startNow : Int) (donations : List (Donation α))
    (hlater : endNow < startNow) (hday : Day startNow = Day endNow)
    (h1 : 29 * msPerDay ≤ endNow) (h2 : YearFromTime endNow ≤ 9999) :
    (prepareChartData toLabel endNow startNow donations).labels =
      (windowDays (startNow - 29 * msPerDay) 29).map (fun u => toLabel (formatDate u)) ∧
    (prepareChartData toLabel endNow startNow donations).values =
      (windowDays (startNow - 29 * msPerDay) 29).map
        (fun u => some (totalOn (formatDate u) donations)) := by
  obtain ⟨hl, hv⟩ := prepareChartData_eq toLabel endNow startNow donations
  rw [hl, hv, chartDates_tick_eq endNow startNow hlater hday h1 h2, List.map_map, List.map_map]
  exact ⟨rfl, rfl⟩

/-! ## The claims -/

/-- Whenever the second `new Date()` of `prepareChartData` is later than the
first, on the same day, the series has fewer than 30 entries. -/
theorem prepareChartData_tick_short {α : Type} [Zero α] [Add α] (toLabel : String → String)
    (endNow startNow : Int) (donations : List (Donation α)) (hlater : endNow < startNow)
    (hday : Day startNow = Day endNow) :
    (prepareChartData toLabel endNow startNow donations).labels.length ≤ 29 ∧
    (prepareChartData toLabel endNow startNow donations).values.length ≤ 29 := by
  obtain ⟨hl, hv⟩ := prepareChartData_eq toLabel endNow startNow donations
  rw [hl, hv, List.length_map, List.length_map]
  exact ⟨chartDates_tick_length endNow startNow hlater hday,
    chartDates_tick_length endNow startNow hlater hday⟩

set_option maxRecDepth 100000 in
/-- C1 (evaluated where it fails): when the clock moves on by one millisecond
between the two `new Date()` of `prepareChartData`, the series has 29 entries,
for 2024-02-15 to 2024-03-14, and none for today, 2024-03-15.  When both give
the same instant it has 30 entries, the last one for today. -/
theorem prepareChartData_tick_29_entries :
    (prepareChartData id noon (noon + 1) ([] : List (Donation Int))).labels =
      ["2024-02-15", "2024-02-16", "2024-02-17", "2024-02-18", "2024-02-19", "2024-02-20",
       "2024-02-21", "2024-02-22", "2024-02-23", "2024-02-24", "2024-02-25", "2024-02-26",
       "2024-02-27", "2024-02-28", "2024-02-29", "2024-03-01", "2024-03-02", "2024-03-03",
       "2024-03-04", "2024-03-05", "2024-03-06", "2024-03-07", "2024-03-08", "2024-03-09",
       "2024-03-10", "2024-03-11", "2024-03-12", "2024-03-13", "2024-03-14"] ∧
    (prepareChartData id noon (noon + 1) ([] : List (Donation Int))).labels.length = 29 ∧
    (prepareChartData id noon (noon + 1) ([] : List (Donation Int))).values.length = 29 ∧
    formatDate noon = "2024-03-15" ∧
    (prepareChartData id noon noon ([] : List (Donation Int))).labels.length = 30 ∧
    (prepareChartData id noon noon ([] : List (Donation Int))).labels.getLast? =
      some "2024-03-15" := by
  decide

set_option maxRecDepth 100000 in
/-- C2 (evaluated where it fails): with the same one-millisecond step of the
clock, contributions of 100 and 50 dated today enter no total: all 29 values
are 0 and no entry belongs to today.  Without the step the entry of today is
150. -/
theorem prepareChartData_tick_drops_today :
    (prepareChartData id noon (noon + 1)
        [manual (100 : Int) "2024-03-15", manual 50 "2024-03-15"]).values =
      List.replicate 29 (some 0) ∧
    "2024-03-15" ∉ (prepareChartData id noon (noon + 1)
        [manual (100 : Int) "2024-03-15", manual 50 "2024-03-15"]).labels ∧
    (prepareChartData id noon noon
        [manual (100 : Int) "2024-03-15", manual 50 "2024-03-15"]).values =
      List.replicate 29 (some 0) ++ [some 150] := by
  decide

theorem JSNumber.not_positive {x : JSNumber} (h : x.positive = false) :
    (x.isNaN || x.leZero) = true := by
  cases x <;> simp_all [JSNumber.positive, JSNumber.isNaN, JSNumber.leZero]

/-- C3: when the text of the amount input does not parse to a positive number,
`handleDonationSubmit` shows the validation message and does nothing else: no
request is issued and the rest of the page is as before. -/
theorem handleDonationSubmit_rejects (env : Env) (s : State)
    (h : (env.parseFloat s.dom.donationAmountInput).positive = false) :
    handleDonationSubmit env s =
      alert "Please enter a valid amount (must be greater than 0)" s ∧
    sentSince s (handleDonationSubmit env s) = [] ∧
    (handleDonationSubmit env s).requests = s.requests := by
  have h1 := JSNumber.not_positive h
  have h2 : handleDonationSubmit env s =
      alert "Please enter a valid amount (must be greater than 0)" s := by
    unfold handleDonationSubmit
    simp only [h1, if_true]
  rw [h2]
  simp [sentSince, alert, Event.request]

theorem handleDonationSubmit_rejects_witness :
    (calmEnv.parseFloat (pageWith "" "abc").dom.donationAmountInput).positive = false ∧
    (calmEnv.parseFloat (pageWith "" "0").dom.donationAmountInput).positive = false ∧
    handleDonationSubmit calmEnv (pageWith "" "abc") =
      alert "Please enter a valid amount (must be greater than 0)" (pageWith "" "abc") ∧
    sentSince (pageWith "" "0") (handleDonationSubmit calmEnv (pageWith "" "0")) = [] :=
  ⟨by decide, by decide,
   (handleDonationSubmit_rejects calmEnv (pageWith "" "abc") (by decide)).1,
   (handleDonationSubmit_rejects calmEnv (pageWith "" "0") (by decide)).2.1⟩


theorem JSNumber.of_positive {x : JSNumber} (h : x.positive = true) :
    (x.isNaN || x.leZero) = false := by
  cases x <;> simp_all [JSNumber.positive, JSNumber.isNaN, JSNumber.leZero]

/-- What `handleDonationSubmit` does when the response makes it raise `error`
before the form is reset: one request, then the failure alert; the page is
otherwise untouched. -/
theorem handleDonationSubmit_of_raise (env : Env) (s : State) (status : Nat)
    (statusText text : String) (parsed : Except JSError Json) (error : JSError)
    (hvalid : (env.parseFloat s.dom.donationAmountInput).positive = true)
    (hresp : env.postDonations s.requests (submitBody env s) =
      .response status statusText text parsed)
    (hcheck : checkSubmitResponse env status text parsed = some error) :
    handleDonationSubmit env s =
      alert (submitFailureText error) (send (submitRequest (submitBody env s)) s) := by
  unfold handleDonationSubmit
  simp only [JSNumber.of_positive hvalid, hresp, hcheck]
  rfl

theorem submitFailureText_plain (name message : String) (h1 : message ≠ "")
    (h2 : message ≠ "[object Object]") :
    submitFailureText ⟨name, message⟩ = "Failed to add Contribution: " ++ message := by
  simp [submitFailureText, h1, h2]

/-- C4 (amended): when a contribution is refused with a status outside 2xx and
a JSON body whose `detail` is truthy and whose text is neither empty nor
`[object Object]`, the alert is `Failed to add Contribution: ` followed by the
text of `detail`, and nothing on the page changes (the inputs are not
cleared). -/
theorem handleDonationSubmit_detail_shown (env : Env) (s : State) (status : Nat)
    (statusText text : String) (responseData detail : Json)
    (hvalid : (env.parseFloat s.dom.donationAmountInput).positive = true)
    (hresp : env.postDonations s.requests (submitBody env s) =
      .response status statusText text (.ok responseData))
    (hstatus : isOk status = false)
    (hdetail : responseData.field "detail" = some detail)
    (htruthy : detail.truthy = true)
    (hne : detail.toStr env.numberToString ≠ "")
    (hobj : detail.toStr env.numberToString ≠ "[object Object]") :
    handleDonationSubmit env s =
      alert ("Failed to add Contribution: " ++ detail.toStr env.numberToString)
        (send (submitRequest (submitBody env s)) s) ∧
    (handleDonationSubmit env s).dom = s.dom := by
  have hrt : responseData.truthy = true := by
    cases responseData <;> simp_all [Json.field, Json.truthy]
  have hcheck : checkSubmitResponse env status text (.ok responseData) =
      some ⟨"Error", detail.toStr env.numberToString⟩ := by
    simp [checkSubmitResponse, hstatus, hrt, hdetail, htruthy]
  have h := handleDonationSubmit_of_raise env s status statusText text (.ok responseData) _
    hvalid hresp hcheck
  rw [submitFailureText_plain _ _ hne hobj] at h
  rw [h]
  exact ⟨rfl, rfl⟩


theorem handleDonationSubmit_detail_shown_witness :
    handleDonationSubmit badDateEnv (pageWith "" "25") =
      alert "Failed to add Contribution: bad date"
        (send (submitRequest (submitBody badDateEnv (pageWith "" "25"))) (pageWith "" "25")) ∧
    (handleDonationSubmit badDateEnv (pageWith "" "25")).dom = (pageWith "" "25").dom :=
  handleDonationSubmit_detail_shown badDateEnv (pageWith "" "25") 500 ""
    "\x7b\"detail\":\"bad date\"\x7d" (.obj [("detail", .str "bad date")]) (.str "bad date")
    (by decide) rfl (by decide) rfl (by decide) (by decide) (by decide)

/-- C4 (as stated, refuted): a 422 response whose `detail` is a list of error
objects is not shown as that detail: the alert is the fixed text
`Server returned an invalid response`. -/
theorem handleDonationSubmit_detail_list_hidden :
    isOk 422 = false ∧
    validationFailure.field "detail" = some (.arr [.obj [("msg", .str "invalid date")]]) ∧
    Json.toStr validationEnv.numberToString (.arr [.obj [("msg", .str "invalid date")]]) =
      "[object Object]" ∧
    (handleDonationSubmit validationEnv (pageWith "" "25")).events =
      [Event.fetch (submitRequest (submitBody validationEnv (pageWith "" "25"))),
       Event.alert "Failed to add Contribution: Server returned an invalid response"] := by
  refine ⟨by decide, rfl, by decide, by decide⟩

/-- C5 (amended): when a contribution is refused with a status outside 2xx and
a body that is not JSON, is not empty and is not the text `[object Object]`,
the alert is `Failed to add Contribution: ` followed by the body text. -/
theorem handleDonationSubmit_raw_text_shown (env : Env) (s : State) (status : Nat)
    (statusText text : String) (jsonError : JSError)
    (hvalid : (env.parseFloat s.dom.donationAmountInput).positive = true)
    (hresp : env.postDonations s.requests (submitBody env s) =
      .response status statusText text (.error jsonError))
    (hstatus : isOk status = false)
    (hne : text ≠ "")
    (hobj : text ≠ "[object Object]") :
    handleDonationSubmit env s =
      alert ("Failed to add Contribution: " ++ text)
        (send (submitRequest (submitBody env s)) s) := by
  have hcheck : checkSubmitResponse env status text (.error jsonError) =
      some ⟨"Error", text⟩ := by
    simp [checkSubmitResponse, hstatus, hne]
  have h := handleDonationSubmit_of_raise env s status statusText text (.error jsonError) _
    hvalid hresp hcheck
  rw [submitFailureText_plain _ _ hne hobj] at h
  exact h

theorem handleDonationSubmit_raw_text_shown_witness :
    handleDonationSubmit (plainTextEnv "Internal Server Error") (pageWith "" "25") =
      alert "Failed to add Contribution: Internal Server Error"
        (send (submitRequest (submitBody (plainTextEnv "Internal Server Error")
          (pageWith "" "25"))) (pageWith "" "25")) :=
  handleDonationSubmit_raw_text_shown (plainTextEnv "Internal Server Error") (pageWith "" "25")
    500 "" "Internal Server Error" ⟨"SyntaxError", "Unexpected token"⟩
    (by decide) rfl (by decide) (by decide) (by decide)

/-- C5 (as stated, refuted): a 500 response with an empty body, which is not
JSON, is not shown as its raw text: the alert names the status instead. -/
theorem handleDonationSubmit_empty_body :
    isOk 500 = false ∧
    (handleDonationSubmit (plainTextEnv "") (pageWith "" "25")).events =
      [Event.fetch (submitRequest (submitBody (plainTextEnv "") (pageWith "" "25"))),
       Event.alert "Failed to add Contribution: HTTP error: 500"] ∧
    "Failed to add Contribution: HTTP error: 500" ≠ "Failed to add Contribution: " ++ "" := by
  refine ⟨by decide, by decide, by decide⟩

/-- C6: when the history request is rejected or comes back with a status
outside 2xx, `loadDonations` ends normally with the empty list and the list
element shows the placeholder. -/
theorem loadDonations_degrades (env : Env) (startDate endDate : Option String) (s : State)
    (h : (env.getDonations s.requests (donationsQuery startDate endDate)).refused = true) :
    (loadDonations env startDate endDate s).1 = Outcome.ok [] ∧
    (loadDonations env startDate endDate s).2 =
      renderDonationList env [] (send (donationsRequest (donationsQuery startDate endDate)) s) ∧
    (loadDonations env startDate endDate s).2.dom.donationList = ListView.placeholder := by
  cases hr : env.getDonations s.requests (donationsQuery startDate endDate) with
  | rejected e =>
    simp [loadDonations, hr, renderDonationList]
  | response status statusText text json =>
    rw [hr] at h
    have hs : isOk status = false := by simpa [FetchResult.refused] using h
    simp [loadDonations, hr, hs, renderDonationList]

theorem loadDonations_degrades_witness :
    (loadDonations offlineEnv (some "2024-03-01") (some "2024-03-31") (pageWith "" "")).1 =
      Outcome.ok [] ∧
    (loadDonations offlineEnv (some "2024-03-01") (some "2024-03-31") (pageWith "" "")).2 =
      renderDonationList offlineEnv [] (send (donationsRequest
        (donationsQuery (some "2024-03-01") (some "2024-03-31"))) (pageWith "" "")) ∧
    (loadDonations offlineEnv (some "2024-03-01") (some "2024-03-31")
      (pageWith "" "")).2.dom.donationList = ListView.placeholder :=
  loadDonations_degrades offlineEnv (some "2024-03-01") (some "2024-03-31") (pageWith "" "")
    (by decide)


theorem JSNumber.nonNegative_iff (x : JSNumber) :
    (x.isNaN || x.ltZero) = !x.nonNegative := by
  cases x with
  | num q =>
    by_cases h : q < 0
    · simp [JSNumber.nonNegative, JSNumber.isNaN, JSNumber.ltZero, h]
    · simp [JSNumber.nonNegative, JSNumber.isNaN, JSNumber.ltZero, h, not_lt.mp h]
  | _ => simp [JSNumber.nonNegative, JSNumber.isNaN, JSNumber.ltZero]

theorem sentSince_alert_send (s : State) (message : String) (r : Request) :
    sentSince s (alert message (send r s)) = [r] := by
  simp [sentSince, alert, send, Event.request]

theorem sentSince_alert (s : State) (message : String) :
    sentSince s (alert message s) = [] := by
  simp [sentSince, alert, Event.request]

/-- C7: `saveSettings` issues the settings request exactly when the text of the
daily-amount input parses to a non-negative number, and it is then the only
request; otherwise it shows the validation message and leaves everything else,
the displayed amount and the visibility of the form included, as it was. -/
theorem saveSettings_sends_iff (env : Env) (s : State) :
    sentSince s (saveSettings env s) =
      (if (env.parseFloat s.dom.dailyAmountInput).nonNegative = true
       then [settingsRequest (env.parseFloat s.dom.dailyAmountInput)] else []) ∧
    ((env.parseFloat s.dom.dailyAmountInput).nonNegative = false →
      saveSettings env s = alert "Please enter a valid daily amount (must be 0 or greater)" s ∧
      (saveSettings env s).dom = s.dom ∧
      (saveSettings env s).requests = s.requests) := by
  have hg := JSNumber.nonNegative_iff (env.parseFloat s.dom.dailyAmountInput)
  cases hv : (env.parseFloat s.dom.dailyAmountInput).nonNegative with
  | false =>
    rw [hv] at hg
    have h2 : saveSettings env s =
        alert "Please enter a valid daily amount (must be 0 or greater)" s := by
      unfold saveSettings
      simp only [hg]
      rfl
    refine ⟨?_, fun _ => ⟨h2, ?_, ?_⟩⟩
    · rw [h2, sentSince_alert]; simp
    · rw [h2]; rfl
    · rw [h2]; rfl
  | true =>
    rw [hv] at hg
    refine ⟨?_, fun h => absurd h (by simp)⟩
    simp only [if_true]
    unfold saveSettings
    simp only [hg]
    cases hp : env.putUserSettings s.requests (env.parseFloat s.dom.dailyAmountInput) with
    | rejected e => simp [sentSince, alert, send, Event.request]
    | response status statusText text json =>
      cases hs : isOk status with
      | false => simp [sentSince, alert, send, Event.request, hs]
      | true =>
        cases json with
        | error e => simp [sentSince, alert, send, Event.request, hs]
        | ok user => simp [sentSince, send, Event.request, hs]

theorem saveSettings_sends_iff_witness :
    sentSince (pageWith "25" "") (saveSettings calmEnv (pageWith "25" "")) =
      [settingsRequest (JSNumber.num 25)] ∧
    saveSettings calmEnv (pageWith "abc" "") =
      alert "Please enter a valid daily amount (must be 0 or greater)" (pageWith "abc" "") ∧
    (saveSettings calmEnv (pageWith "abc" "")).dom = (pageWith "abc" "").dom :=
  ⟨(saveSettings_sends_iff calmEnv (pageWith "25" "")).1,
   ((saveSettings_sends_iff calmEnv (pageWith "abc" "")).2 (by decide)).1,
   ((saveSettings_sends_iff calmEnv (pageWith "abc" "")).2 (by decide)).2.1⟩


/-! ### The requests of the bootstrap -/

theorem FetchResult.shape_of_succeeded {α : Type} {r : FetchResult α}
    (h : r.succeeded = true) :
    ∃ status statusText text value,
      r = .response status statusText text (.ok value) ∧ isOk status = true := by
  cases r with
  | rejected e => simp [FetchResult.succeeded] at h
  | response status statusText text json =>
    cases json with
    | error e => simp [FetchResult.succeeded] at h
    | ok value => exact ⟨status, statusText, text, value, rfl, by simpa [FetchResult.succeeded] using h⟩

theorem loadUserSettings_of_succeeded (env : Env) (s : State)
    (h : (env.getUser s.requests).succeeded = true) :
    ∃ t, loadUserSettings env s = (Outcome.ok (), t) ∧
      t.events = s.events ++ [Event.fetch (userRequest none)] ∧ t.requests = s.requests + 1 := by
  obtain ⟨status, statusText, text, user, hr, hok⟩ := FetchResult.shape_of_succeeded h
  refine ⟨(loadUserSettings env s).2, ?_, ?_, ?_⟩
  · apply Prod.ext
    · simp [loadUserSettings, hr, hok]
    · rfl
  · simp [loadUserSettings, hr, hok, send]
  · simp [loadUserSettings, hr, hok, send]

theorem loadSummary_of_succeeded (env : Env) (s : State)
    (h : (env.getSummary s.requests).succeeded = true) :
    ∃ t, loadSummary env s = (Outcome.ok (), t) ∧
      t.events = s.events ++ [Event.fetch summaryRequest] ∧ t.requests = s.requests + 1 := by
  obtain ⟨status, statusText, text, summary, hr, hok⟩ := FetchResult.shape_of_succeeded h
  refine ⟨(loadSummary env s).2, ?_, ?_, ?_⟩
  · apply Prod.ext
    · simp [loadSummary, hr, hok]
    · rfl
  · simp [loadSummary, hr, hok, send]
  · simp [loadSummary, hr, hok, send]

theorem renderDonationList_frame (env : Env) (donations : List (Donation ℚ)) (s : State) :
    (renderDonationList env donations s).events = s.events ∧
    (renderDonationList env donations s).requests = s.requests ∧
    (renderDonationList env donations s).donationChart = s.donationChart := by
  unfold renderDonationList
  split <;> exact ⟨rfl, rfl, rfl⟩

/-- `loadDonations` always ends normally, after exactly one request. -/
theorem loadDonations_total (env : Env) (startDate endDate : Option String) (s : State) :
    ∃ donations t, loadDonations env startDate endDate s = (Outcome.ok donations, t) ∧
      t.events = s.events ++ [Event.fetch (donationsRequest (donationsQuery startDate endDate))] ∧
      t.requests = s.requests + 1 ∧ t.donationChart = s.donationChart := by
  have hframe := fun ds => renderDonationList_frame env ds
    (send (donationsRequest (donationsQuery startDate endDate)) s)
  have hempty : ∀ r, r = ((Outcome.ok [] : Outcome (List (Donation ℚ))), renderDonationList env []
      (send (donationsRequest (donationsQuery startDate endDate)) s)) →
      ∃ donations t, r = (Outcome.ok donations, t) ∧
      t.events = s.events ++ [Event.fetch (donationsRequest (donationsQuery startDate endDate))] ∧
      t.requests = s.requests + 1 ∧ t.donationChart = s.donationChart := by
    intro r hr
    exact ⟨[], _, hr, (hframe []).1, (hframe []).2.1, (hframe []).2.2⟩
  cases hr : env.getDonations s.requests (donationsQuery startDate endDate) with
  | rejected e =>
    apply hempty
    simp only [loadDonations, hr]
  | response status statusText text json =>
    cases hs : isOk status with
    | false =>
      apply hempty
      simp [loadDonations, hr, hs]
    | true =>
      cases json with
      | error e =>
        apply hempty
        simp [loadDonations, hr, hs]
      | ok donations =>
        refine ⟨donations, renderDonationList env donations
          (send (donationsRequest (donationsQuery startDate endDate)) s), ?_,
          (hframe donations).1, (hframe donations).2.1, (hframe donations).2.2⟩
        simp [loadDonations, hr, hs]

/-- `createDonationChart` issues no request and shows no alert. -/
theorem createDonationChart_events (env : Env) (donations : List (Donation ℚ)) (s : State) :
    (createDonationChart env donations s).events = s.events := by
  unfold createDonationChart prepareChartDataNow
  cases hc : s.dom.hasChartCanvas with
  | false => simp
  | true =>
    cases hd : s.donationChart with
    | none =>
      simp only [Bool.not_true, Bool.false_eq_true, if_false]
      split <;> rfl
    | some chart =>
      cases h1 : env.chartRaises s.chartCalls with
      | true => simp
      | false =>
        simp only [Bool.not_true, Bool.false_eq_true, if_false]
        split <;> rfl

theorem initChart_events (env : Env) (s : State) :
    (initChart env s).events = s.events ++ [Event.fetch (donationsRequest [])] := by
  obtain ⟨donations, t, ht, hev, _, _⟩ := loadDonations_total env none none s
  unfold initChart
  rw [ht]
  simp only [createDonationChart_events, hev]
  rfl

/-- Every run of `initApp` in which the requests succeed leaves these six
requests, in this order, after the events that were there before. -/
theorem initApp_events_of_succeed (env : Env) (s : State) (h : AllSucceed env) :
    (initApp env s).events = s.events ++
      [Event.fetch (userRequest (some 5000)), Event.fetch (userRequest none),
       Event.fetch autoDonateRequest, Event.fetch summaryRequest,
       Event.fetch (donationsRequest []), Event.fetch (donationsRequest [])] := by
  obtain ⟨hUser, _, _, hSummary, _, _⟩ := h
  obtain ⟨status, statusText, text, user, hr, hok⟩ :=
    FetchResult.shape_of_succeeded (hUser s.requests)
  obtain ⟨t2, h2, e2, _⟩ :=
    loadUserSettings_of_succeeded env (send (userRequest (some 5000)) s) (hUser _)
  obtain ⟨t4, h4, e4, _⟩ :=
    loadSummary_of_succeeded env (runAutoDonateSilently env t2).2 (hSummary _)
  obtain ⟨donations, t5, h5, e5, _, _⟩ := loadDonations_total env none none t4
  have e3 : (runAutoDonateSilently env t2).2.events = t2.events ++ [Event.fetch autoDonateRequest] := by
    unfold runAutoDonateSilently
    simp only []
    repeat' split
    all_goals rfl
  unfold initApp
  simp only [hr, hok, h2, h4, h5, Bool.not_true, Bool.false_eq_true, if_false]
  rw [initChart_events, e5, e4, e3, e2]
  simp [send, donationsQuery]


theorem calmEnv_allSucceed : AllSucceed calmEnv :=
  ⟨fun _ => rfl, fun _ _ => rfl, fun _ => rfl, fun _ => rfl, fun _ _ => rfl, fun _ _ => rfl⟩

/-- C8 (amended): in every run of `initApp` in which the remote calls succeed,
exactly six requests are issued, one after another in this order: the
reachability check, the settings, the automatic-contribution trigger, the
summary, the history, and the history once more (from `initChart`). -/
theorem initApp_six_requests (env : Env) (s : State) (h : AllSucceed env) :
    sentSince s (initApp env s) =
      [userRequest (some 5000), userRequest none, autoDonateRequest, summaryRequest,
       donationsRequest [], donationsRequest []] := by
  unfold sentSince
  rw [initApp_events_of_succeed env s h]
  simp [Event.request]

theorem initApp_six_requests_witness :
    sentSince (pageWith "" "") (initApp calmEnv (pageWith "" "")) =
      [userRequest (some 5000), userRequest none, autoDonateRequest, summaryRequest,
       donationsRequest [], donationsRequest []] :=
  initApp_six_requests calmEnv (pageWith "" "") calmEnv_allSucceed

/-- C8 (as stated, refuted): with a server that answers every request with
success, `initApp` issues six requests, not five, and the history request is
issued twice. -/
theorem initApp_not_five_requests :
    AllSucceed calmEnv ∧
    (sentSince (pageWith "" "") (initApp calmEnv (pageWith "" ""))).length = 6 ∧
    (sentSince (pageWith "" "") (initApp calmEnv (pageWith "" ""))).count (donationsRequest []) = 2 := by
  refine ⟨calmEnv_allSucceed, by decide, by decide⟩


/-! ### The chart -/

/-- C9 (amended): when a chart exists and the call of `update` into the
charting library does not raise, `updateDonationChart` keeps the instance: the
chart afterwards is the same chart with its labels and values replaced by the
output of `prepareChartData`, nothing is destroyed and nothing is constructed. -/
theorem updateDonationChart_in_place (env : Env) (donations : List (Donation ℚ)) (s : State)
    (chart : Chart) (hchart : s.donationChart = some chart)
    (hquiet : env.chartRaises s.chartCalls = false) :
    (updateDonationChart env donations s).donationChart =
      some { chart with
        labels := (prepareChartData env.toChartLabel (env.now s.clockReads)
          (env.now (s.clockReads + 1)) donations).labels,
        data := (prepareChartData env.toChartLabel (env.now s.clockReads)
          (env.now (s.clockReads + 1)) donations).values } ∧
    ((updateDonationChart env donations s).donationChart.map Chart.id = some chart.id) ∧
    (updateDonationChart env donations s).destroyed = s.destroyed ∧
    (updateDonationChart env donations s).chartsMade = s.chartsMade := by
  unfold updateDonationChart prepareChartDataNow
  simp [hchart, hquiet]

theorem updateDonationChart_in_place_witness :
    (updateDonationChart calmEnv [manual 100 "2024-03-15"] pageWithChart).donationChart =
      some { (⟨0, [], []⟩ : Chart) with
        labels := (prepareChartData calmEnv.toChartLabel (calmEnv.now pageWithChart.clockReads)
          (calmEnv.now (pageWithChart.clockReads + 1)) [manual 100 "2024-03-15"]).labels,
        data := (prepareChartData calmEnv.toChartLabel (calmEnv.now pageWithChart.clockReads)
          (calmEnv.now (pageWithChart.clockReads + 1)) [manual 100 "2024-03-15"]).values } ∧
    ((updateDonationChart calmEnv [manual 100 "2024-03-15"] pageWithChart).donationChart.map
      Chart.id = some 0) ∧
    (updateDonationChart calmEnv [manual 100 "2024-03-15"] pageWithChart).destroyed =
      pageWithChart.destroyed ∧
    (updateDonationChart calmEnv [manual 100 "2024-03-15"] pageWithChart).chartsMade =
      pageWithChart.chartsMade :=
  updateDonationChart_in_place calmEnv [manual 100 "2024-03-15"] pageWithChart ⟨0, [], []⟩
    rfl rfl

/-- C9 (as stated, refuted): when `update` raises, the `catch` block of
`updateDonationChart` calls `createDonationChart`, which destroys chart 0 and
constructs chart 1. -/
theorem updateDonationChart_rebuilds :
    pageWithChart.donationChart.map Chart.id = some 0 ∧
    (updateDonationChart brittleEnv [] pageWithChart).donationChart.map Chart.id = some 1 ∧
    (updateDonationChart brittleEnv [] pageWithChart).destroyed = [0] ∧
    (updateDonationChart brittleEnv [] pageWithChart).chartsMade = 2 := by
  decide


/-! ### Dates with a time part -/

theorem takeWhile_append_stop {p : Char → Bool} (l r : List Char) (x : Char)
    (hl : ∀ c ∈ l, p c = true) (hx : p x = false) :
    (l ++ x :: r).takeWhile p = l := by
  induction l with
  | nil => simp [List.takeWhile, hx]
  | cons a rest ih =>
    have ha : p a = true := hl a (List.mem_cons_self a rest)
    have hrest : ∀ c ∈ rest, p c = true := fun c hc => hl c (List.mem_cons_of_mem a hc)
    simp [List.takeWhile, ha, ih hrest]

theorem digit_ne_T {c : Char} (h : c.isDigit = true) : (c != 'T') = true := by
  by_cases hc : c = 'T'
  · subst hc
    exact absurd h (by decide)
  · simpa using hc

theorem hyphen_ne_T {c : Char} (h : (c == '-') = true) : (c != 'T') = true := by
  have hc : c = '-' := by simpa using h
  subst hc
  decide

/-- A text of the shape `YYYY-MM-DD` holds no `T`. -/
theorem isCalendarDate_no_T (ymd : String) (h : isCalendarDate ymd = true) :
    ∀ c ∈ ymd.data, (c != 'T') = true := by
  unfold isCalendarDate at h
  split at h
  · next y1 y2 y3 y4 h1 m1 m2 h2 d1 d2 heq =>
    simp only [Bool.and_eq_true] at h
    obtain ⟨⟨⟨⟨⟨⟨⟨⟨⟨a1, a2⟩, a3⟩, a4⟩, a5⟩, a6⟩, a7⟩, a8⟩, a9⟩, a10⟩ := h
    intro c hc
    rw [heq] at hc
    simp only [List.mem_cons, List.mem_singleton, List.not_mem_nil, or_false] at hc
    rcases hc with rfl | rfl | rfl | rfl | rfl | rfl | rfl | rfl | rfl | rfl
    · exact digit_ne_T a1
    · exact digit_ne_T a2
    · exact digit_ne_T a3
    · exact digit_ne_T a4
    · exact hyphen_ne_T a5
    · exact digit_ne_T a6
    · exact digit_ne_T a7
    · exact hyphen_ne_T a8
    · exact digit_ne_T a9
    · exact digit_ne_T a10
  · exact absurd h (by simp)

theorem splitT0_calendarDate_T (ymd rest : String) (h : isCalendarDate ymd = true) :
    splitT0 (ymd ++ "T" ++ rest) = ymd := by
  unfold splitT0
  have hdata : (ymd ++ "T" ++ rest).data = ymd.data ++ 'T' :: rest.data := by
    simp [String.data_append]
  rw [hdata, takeWhile_append_stop ymd.data rest.data 'T' (isCalendarDate_no_T ymd h) (by decide)]

/-- `addDonation` looks at a contribution only through its amount and its
truncated date. -/
theorem addDonation_congr {α : Type} [Add α] (m : DateMap α) (d d2 : Donation α)
    (hdate : splitT0 d.date = splitT0 d2.date) (hamount : d.amount = d2.amount) :
    addDonation m d = addDonation m d2 := by
  unfold addDonation
  rw [hdate, hamount]

/-- C10 (amended): a contribution whose date is `YYYY-MM-DD` followed by a
suffix that begins with `T` is aggregated exactly as the same contribution with
the bare `YYYY-MM-DD`. -/
theorem prepareChartData_T_suffix {α : Type} [Zero α] [Add α] (toLabel : String → String)
    (endNow startNow : Int) (before after : List (Donation α)) (d : Donation α)
    (ymd rest : String) (hymd : isCalendarDate ymd = true) (hdate : d.date = ymd ++ "T" ++ rest) :
    prepareChartData toLabel endNow startNow (before ++ d :: after) =
      prepareChartData toLabel endNow startNow (before ++ { d with date := ymd } :: after) := by
  have h1 : splitT0 d.date = ymd := by rw [hdate]; exact splitT0_calendarDate_T ymd rest hymd
  have h2 : splitT0 ymd = ymd := by
    unfold splitT0
    rw [List.takeWhile_eq_self_iff.mpr (isCalendarDate_no_T ymd hymd)]
  have hstep : ∀ m : DateMap α, addDonation m d = addDonation m { d with date := ymd } :=
    fun m => addDonation_congr m d _ (by rw [h1, h2]) rfl
  unfold prepareChartData
  simp only [List.foldl_append, List.foldl_cons, hstep]

set_option maxRecDepth 100000 in
theorem prepareChartData_T_suffix_witness :
    prepareChartData id noon noon
        ([] ++ manual (100 : Int) "2024-03-15T10:30:00+05:00" :: [manual 50 "2024-03-14"]) =
      prepareChartData id noon noon
        ([] ++ { manual (100 : Int) "2024-03-15T10:30:00+05:00" with date := "2024-03-15" } ::
          [manual 50 "2024-03-14"]) :=
  prepareChartData_T_suffix id noon noon [] [manual 50 "2024-03-14"]
    (manual 100 "2024-03-15T10:30:00+05:00") "2024-03-15" "10:30:00+05:00" (by decide) (by decide)

set_option maxRecDepth 100000 in
/-- C10 (as stated, refuted): a contribution of 100 dated `2024-03-15 10:30:00`,
a calendar date followed by a time that does not begin with `T`, enters no
total, while the same contribution dated `2024-03-15` adds 100 to the total of
that day. -/
theorem prepareChartData_space_suffix :
    isCalendarDate "2024-03-15" = true ∧
    "2024-03-15 10:30:00" = "2024-03-15" ++ " 10:30:00" ∧
    (prepareChartData id noon noon [manual (100 : Int) "2024-03-15 10:30:00"]).values =
      List.replicate 30 (some 0) ∧
    (prepareChartData id noon noon [manual (100 : Int) "2024-03-15"]).values =
      List.replicate 29 (some 0) ++ [some 100] := by
  decide

/-! ### The order of the contributions -/

/-- With amounts whose addition is associative and commutative, the total of a
date does not depend on the order of the contributions. -/
theorem totalOn_perm {α : Type} [AddCommMonoid α] (k : String) (ds ds2 : List (Donation α))
    (h : ds.Perm ds2) : totalOn k ds = totalOn k ds2 := by
  unfold totalOn
  have hp : ((ds.filter (fun d => splitT0 d.date = k)).map Donation.amount).Perm
      ((ds2.filter (fun d => splitT0 d.date = k)).map Donation.amount) :=
    (h.filter _).map _
  exact hp.foldl_eq' (fun x _ y _ z => by rw [add_assoc, add_comm x y, ← add_assoc]) 0

/-- In an arithmetic whose addition is associative and commutative (which the
addition of JavaScript numbers is not), `prepareChartData` at the same clock
readings returns the same labels and the same values for a list of
contributions and for every permutation of it. -/
theorem prepareChartData_perm {α : Type} [AddCommMonoid α] (toLabel : String → String)
    (endNow startNow : Int) (donations permuted : List (Donation α))
    (h : donations.Perm permuted) :
    prepareChartData toLabel endNow startNow donations =
      prepareChartData toLabel endNow startNow permuted := by
  obtain ⟨hl, hv⟩ := prepareChartData_eq toLabel endNow startNow donations
  obtain ⟨hl2, hv2⟩ := prepareChartData_eq toLabel endNow startNow permuted
  have hlabels : (prepareChartData toLabel endNow startNow donations).labels =
      (prepareChartData toLabel endNow startNow permuted).labels := by rw [hl, hl2]
  have hvalues : (prepareChartData toLabel endNow startNow donations).values =
      (prepareChartData toLabel endNow startNow permuted).values := by
    rw [hv, hv2]
    apply List.map_congr_left
    intro k _
    rw [totalOn_perm k donations permuted h]
  cases hx : prepareChartData toLabel endNow startNow donations with
  | mk l1 v1 =>
    cases hy : prepareChartData toLabel endNow startNow permuted with
    | mk l2 v2 =>
      rw [hx, hy] at hlabels hvalues
      simp only at hlabels hvalues
      rw [hlabels, hvalues]

set_option maxRecDepth 100000 in
theorem prepareChartData_perm_witness :
    prepareChartData id noon noon
        [manual (100 : Int) "2024-03-15", manual 50 "2024-03-14", manual 7 "2024-03-15T08:00:00"] =
      prepareChartData id noon noon
        [manual 7 "2024-03-15T08:00:00", manual (100 : Int) "2024-03-15", manual 50 "2024-03-14"] :=
  prepareChartData_perm id noon noon _ _ (by decide)


/-! ### Failures during the bootstrap -/

theorem FetchResult.shape_of_not_refused {α : Type} {r : FetchResult α}
    (h : r.refused = false) :
    ∃ status statusText text json,
      r = .response status statusText text json ∧ isOk status = true := by
  cases r with
  | rejected e => simp [FetchResult.refused] at h
  | response status statusText text json =>
    exact ⟨status, statusText, text, json, rfl, by simpa [FetchResult.refused] using h⟩

theorem runAutoDonateSilently_state (env : Env) (s : State) :
    (runAutoDonateSilently env s).2 = send autoDonateRequest s := by
  unfold runAutoDonateSilently
  simp only []
  repeat' split
  all_goals rfl

theorem loadUserSettings_of_failed (env : Env) (s : State)
    (h : (env.getUser s.requests).succeeded = false) :
    ∃ error, loadUserSettings env s = (Outcome.throw error, send (userRequest none) s) := by
  cases hr : env.getUser s.requests with
  | rejected e => exact ⟨e, by simp only [loadUserSettings, hr]⟩
  | response status statusText text json =>
    cases hs : isOk status with
    | false => exact ⟨_, by simp only [loadUserSettings, hr, hs]; rfl⟩
    | true =>
      cases json with
      | error e => exact ⟨e, by simp only [loadUserSettings, hr, hs]; rfl⟩
      | ok user => rw [hr] at h; simp [FetchResult.succeeded, hs] at h

theorem loadSummary_of_failed (env : Env) (s : State)
    (h : (env.getSummary s.requests).succeeded = false) :
    ∃ error, loadSummary env s = (Outcome.throw error, send summaryRequest s) := by
  cases hr : env.getSummary s.requests with
  | rejected e => exact ⟨e, by simp only [loadSummary, hr]⟩
  | response status statusText text json =>
    cases hs : isOk status with
    | false => exact ⟨_, by simp only [loadSummary, hr, hs]; rfl⟩
    | true =>
      cases json with
      | error e => exact ⟨e, by simp only [loadSummary, hr, hs]; rfl⟩
      | ok summary => rw [hr] at h; simp [FetchResult.succeeded, hs] at h

/-- What a successful `loadUserSettings` leaves untouched. -/
theorem loadUserSettings_frame (env : Env) (s : State) :
    (loadUserSettings env s).2.dom.banners = s.dom.banners ∧
    (loadUserSettings env s).2.dom.donationList = s.dom.donationList ∧
    (loadUserSettings env s).2.donationChart = s.donationChart ∧
    (loadUserSettings env s).2.clockReads = s.clockReads ∧
    (loadUserSettings env s).2.requests = s.requests + 1 ∧
    (loadUserSettings env s).2.events = s.events ++ [Event.fetch (userRequest none)] := by
  unfold loadUserSettings
  simp only []
  repeat' split
  all_goals exact ⟨rfl, rfl, rfl, rfl, rfl, rfl⟩

theorem halted_of_banner (s t : State) (sent : List Request) (message : String)
    (hevents : t.events = s.events ++ sent.map Event.fetch)
    (hbanners : t.dom.banners = s.dom.banners) (hlist : t.dom.donationList = s.dom.donationList)
    (hchart : t.donationChart = s.donationChart) (hclock : t.clockReads = s.clockReads) :
    haltedAfter s (displayErrorMessage message t) sent := by
  refine ⟨?_, ⟨message, ?_⟩, ?_, ?_, ?_⟩
  · have hsome : Event.request ∘ Event.fetch = some := rfl
    simp [sentSince, displayErrorMessage, hevents, List.filterMap_map, hsome]
  · simp [displayErrorMessage, hbanners]
  · simp [displayErrorMessage, hlist]
  · simp [displayErrorMessage, hchart]
  · simp [displayErrorMessage, hclock]


theorem loadSummary_frame (env : Env) (s : State) :
    (loadSummary env s).2.dom.banners = s.dom.banners ∧
    (loadSummary env s).2.requests = s.requests + 1 ∧
    (loadSummary env s).2.events = s.events ++ [Event.fetch summaryRequest] := by
  unfold loadSummary
  simp only []
  repeat' split
  all_goals exact ⟨rfl, rfl, rfl⟩

theorem renderDonationList_banners (env : Env) (donations : List (Donation ℚ)) (s : State) :
    (renderDonationList env donations s).dom.banners = s.dom.banners := by
  unfold renderDonationList
  split <;> rfl

theorem loadDonations_banners (env : Env) (startDate endDate : Option String) (s : State) :
    (loadDonations env startDate endDate s).2.dom.banners = s.dom.banners := by
  unfold loadDonations
  simp only []
  repeat' split
  all_goals (rw [renderDonationList_banners]; rfl)

theorem createDonationChart_banners (env : Env) (donations : List (Donation ℚ)) (s : State) :
    (createDonationChart env donations s).dom.banners = s.dom.banners := by
  unfold createDonationChart prepareChartDataNow
  cases hc : s.dom.hasChartCanvas with
  | false => simp
  | true =>
    cases hd : s.donationChart with
    | none =>
      simp only [Bool.not_true, Bool.false_eq_true, if_false]
      split <;> rfl
    | some chart =>
      cases h1 : env.chartRaises s.chartCalls with
      | true => simp
      | false =>
        simp only [Bool.not_true, Bool.false_eq_true, if_false]
        split <;> rfl

theorem initChart_banners (env : Env) (s : State) :
    (initChart env s).dom.banners = s.dom.banners := by
  have hb := loadDonations_banners env none none s
  unfold initChart
  split
  · next donations s1 heq =>
    rw [createDonationChart_banners]
    rw [heq] at hb
    exact hb
  · next e s1 heq =>
    rw [createDonationChart_banners]
    rw [heq] at hb
    exact hb

/-- When the reachability check, the settings and the summary succeed, the
bootstrap runs to its end whatever the history requests return: six requests,
no banner. -/
theorem initApp_of_loads (env : Env) (s : State)
    (hcheck : (env.getUser s.requests).refused = false)
    (hsettings : (env.getUser (s.requests + 1)).succeeded = true)
    (hsummary : (env.getSummary (s.requests + 3)).succeeded = true) :
    (initApp env s).events = s.events ++
      [Event.fetch (userRequest (some 5000)), Event.fetch (userRequest none),
       Event.fetch autoDonateRequest, Event.fetch summaryRequest,
       Event.fetch (donationsRequest []), Event.fetch (donationsRequest [])] ∧
    (initApp env s).dom.banners = s.dom.banners := by
  obtain ⟨status, statusText, text, json, hr, hok⟩ := FetchResult.shape_of_not_refused hcheck
  obtain ⟨t2, h2, e2, r2⟩ :=
    loadUserSettings_of_succeeded env (send (userRequest (some 5000)) s) hsettings
  have ht2 : t2 = (loadUserSettings env (send (userRequest (some 5000)) s)).2 := by rw [h2]
  have f2 := loadUserSettings_frame env (send (userRequest (some 5000)) s)
  rw [← ht2] at f2
  have hs3 : (runAutoDonateSilently env t2).2 = send autoDonateRequest t2 :=
    runAutoDonateSilently_state env t2
  have hreq3 : (send autoDonateRequest t2).requests = s.requests + 3 := by
    simp only [send, r2]
  obtain ⟨t4, h4, e4, _⟩ :=
    loadSummary_of_succeeded env (send autoDonateRequest t2) (by rw [hreq3]; exact hsummary)
  have ht4 : t4 = (loadSummary env (send autoDonateRequest t2)).2 := by rw [h4]
  have f4 := loadSummary_frame env (send autoDonateRequest t2)
  rw [← ht4] at f4
  obtain ⟨donations, t5, h5, e5, _, _⟩ := loadDonations_total env none none t4
  have ht5 : t5 = (loadDonations env none none t4).2 := by rw [h5]
  have b5 := loadDonations_banners env none none t4
  rw [← ht5] at b5
  unfold initApp
  simp only [hr, hok, h2, hs3, h4, h5, Bool.not_true, Bool.false_eq_true, if_false]
  constructor
  · rw [initChart_events, e5, e4]
    simp [send, donationsQuery, e2]
  · rw [initChart_banners, b5, f4.1]
    simp [send, f2.1]


theorem initApp_of_unreachable (env : Env) (s : State)
    (h : (env.getUser s.requests).refused = true) :
    haltedAfter s (initApp env s) [userRequest (some 5000)] := by
  have hhalt := fun message => halted_of_banner s (send (userRequest (some 5000)) s)
    [userRequest (some 5000)] message rfl rfl rfl rfl rfl
  cases hr : env.getUser s.requests with
  | rejected e =>
    have : initApp env s = displayErrorMessage (initFailureText e)
        (send (userRequest (some 5000)) s) := by
      simp only [initApp, hr]
    rw [this]
    exact hhalt _
  | response status statusText text json =>
    rw [hr] at h
    have hs : isOk status = false := by simpa [FetchResult.refused] using h
    have : initApp env s = displayErrorMessage
        (initFailureText ⟨"Error", "Server returned " ++ toString status ++ ": " ++ statusText⟩)
        (send (userRequest (some 5000)) s) := by
      simp [initApp, hr, hs]
    rw [this]
    exact hhalt _

theorem initApp_of_settings_failed (env : Env) (s : State)
    (hcheck : (env.getUser s.requests).refused = false)
    (hsettings : (env.getUser (s.requests + 1)).succeeded = false) :
    haltedAfter s (initApp env s) [userRequest (some 5000), userRequest none] := by
  obtain ⟨status, statusText, text, json, hr, hok⟩ := FetchResult.shape_of_not_refused hcheck
  obtain ⟨error, h2⟩ :=
    loadUserSettings_of_failed env (send (userRequest (some 5000)) s) hsettings
  have : initApp env s = displayErrorMessage (initFailureText error)
      (send (userRequest none) (send (userRequest (some 5000)) s)) := by
    simp [initApp, hr, hok, h2]
  rw [this]
  exact halted_of_banner s _ _ _ (by simp [send]) rfl rfl rfl rfl

theorem initApp_of_summary_failed (env : Env) (s : State)
    (hcheck : (env.getUser s.requests).refused = false)
    (hsettings : (env.getUser (s.requests + 1)).succeeded = true)
    (hsummary : (env.getSummary (s.requests + 3)).succeeded = false) :
    haltedAfter s (initApp env s)
      [userRequest (some 5000), userRequest none, autoDonateRequest, summaryRequest] := by
  obtain ⟨status, statusText, text, json, hr, hok⟩ := FetchResult.shape_of_not_refused hcheck
  obtain ⟨t2, h2, e2, r2⟩ :=
    loadUserSettings_of_succeeded env (send (userRequest (some 5000)) s) hsettings
  have ht2 : t2 = (loadUserSettings env (send (userRequest (some 5000)) s)).2 := by rw [h2]
  have f2 := loadUserSettings_frame env (send (userRequest (some 5000)) s)
  rw [← ht2] at f2
  have hs3 : (runAutoDonateSilently env t2).2 = send autoDonateRequest t2 :=
    runAutoDonateSilently_state env t2
  have hreq3 : (send autoDonateRequest t2).requests = s.requests + 3 := by
    simp only [send, r2]
  obtain ⟨error, h4⟩ :=
    loadSummary_of_failed env (send autoDonateRequest t2) (by rw [hreq3]; exact hsummary)
  have : initApp env s = displayErrorMessage (initFailureText error)
      (send summaryRequest (send autoDonateRequest t2)) := by
    simp [initApp, hr, hok, h2, hs3, h4]
  rw [this]
  obtain ⟨fb, fl, fc, fk, _, _⟩ := f2
  exact halted_of_banner s _ _ _ (by simp [send, e2]) (by simp [send, fb])
    (by simp [send, fl]) (by simp [send, fc]) (by simp [send, fk])

/-- C11 (amended): in every run of `initApp` in which the reachability check,
the settings load or the summary load fails, the bootstrap halts there (no
later request is issued, the history list and the chart are not touched) and
`displayErrorMessage` puts a banner on the page.  A failed history load does
not halt it: when the three loads before it succeed, all six requests are
issued and no banner is shown, whatever the history requests return. -/
theorem initApp_halts_or_degrades (env : Env) (s : State) :
    ((env.getUser s.requests).refused = true →
      haltedAfter s (initApp env s) [userRequest (some 5000)]) ∧
    ((env.getUser s.requests).refused = false →
      (env.getUser (s.requests + 1)).succeeded = false →
      haltedAfter s (initApp env s) [userRequest (some 5000), userRequest none]) ∧
    ((env.getUser s.requests).refused = false →
      (env.getUser (s.requests + 1)).succeeded = true →
      (env.getSummary (s.requests + 3)).succeeded = false →
      haltedAfter s (initApp env s)
        [userRequest (some 5000), userRequest none, autoDonateRequest, summaryRequest]) ∧
    ((env.getUser s.requests).refused = false →
      (env.getUser (s.requests + 1)).succeeded = true →
      (env.getSummary (s.requests + 3)).succeeded = true →
      sentSince s (initApp env s) =
        [userRequest (some 5000), userRequest none, autoDonateRequest, summaryRequest,
         donationsRequest [], donationsRequest []] ∧
      (initApp env s).dom.banners = s.dom.banners) := by
  refine ⟨initApp_of_unreachable env s, initApp_of_settings_failed env s,
    initApp_of_summary_failed env s, ?_⟩
  intro h1 h2 h3
  obtain ⟨hevents, hbanners⟩ := initApp_of_loads env s h1 h2 h3
  refine ⟨?_, hbanners⟩
  unfold sentSince
  rw [hevents]
  simp [Event.request]

theorem initApp_halts_or_degrades_witness :
    haltedAfter (pageWith "" "") (initApp unreachableEnv (pageWith "" ""))
      [userRequest (some 5000)] ∧
    haltedAfter (pageWith "" "") (initApp settingsDownEnv (pageWith "" ""))
      [userRequest (some 5000), userRequest none] ∧
    haltedAfter (pageWith "" "") (initApp summaryDownEnv (pageWith "" ""))
      [userRequest (some 5000), userRequest none, autoDonateRequest, summaryRequest] ∧
    (sentSince (pageWith "" "") (initApp offlineEnv (pageWith "" "")) =
        [userRequest (some 5000), userRequest none, autoDonateRequest, summaryRequest,
         donationsRequest [], donationsRequest []] ∧
      (initApp offlineEnv (pageWith "" "")).dom.banners = (pageWith "" "").dom.banners) :=
  ⟨(initApp_halts_or_degrades unreachableEnv (pageWith "" "")).1 (by decide),
   (initApp_halts_or_degrades settingsDownEnv (pageWith "" "")).2.1 (by decide) (by decide),
   (initApp_halts_or_degrades summaryDownEnv (pageWith "" "")).2.2.1 (by decide) (by decide)
     (by decide),
   (initApp_halts_or_degrades offlineEnv (pageWith "" "")).2.2.2 (by decide) (by decide)
     (by decide)⟩

set_option maxRecDepth 100000 in
/-- C11 (as stated, refuted): with a server whose history request does not get
through, the history load of the bootstrap fails, yet `initApp` goes on: it
issues the second history request from `initChart`, builds the chart, shows the
placeholder in the list and puts no banner on the page. -/
theorem initApp_history_failure_no_banner :
    (offlineEnv.getDonations 4 (donationsQuery none none)).refused = true ∧
    (initApp offlineEnv (pageWith "" "")).dom.banners = [] ∧
    sentSince (pageWith "" "") (initApp offlineEnv (pageWith "" "")) =
      [userRequest (some 5000), userRequest none, autoDonateRequest, summaryRequest,
       donationsRequest [], donationsRequest []] ∧
    (initApp offlineEnv (pageWith "" "")).dom.donationList = ListView.placeholder ∧
    (initApp offlineEnv (pageWith "" "")).donationChart.isSome = true ∧
    (initApp offlineEnv (pageWith "" "")).clockReads = 2 := by
  decide


/-! ### The order of the contributions, with the addition of JavaScript numbers -/

theorem roundNat53_of_le (a : Nat) (h : a ≤ 2 ^ 53) : roundNat53 a = a := by
  by_cases hlt : a < 2 ^ 53
  · have hk : shiftFor a 971 0 = 0 := by
      show (if a < 2 ^ (53 + 0) then 0 else shiftFor a 970 (0 + 1)) = 0
      rw [if_pos hlt]
    unfold roundNat53
    simp [hk, Nat.mod_one]
  · have ha : a = 2 ^ 53 := by omega
    subst ha
    decide

/-- Integers up to `2 ^ 53` in magnitude are doubles: rounding leaves them as
they are. -/
theorem roundInt53_of_le (x : Int) (h : x.natAbs ≤ 2 ^ 53) : roundInt53 x = x := by
  unfold roundInt53
  rw [roundNat53_of_le _ h]
  by_cases hx : x < 0
  · rw [if_pos hx]
    simp only [Int.ofNat_eq_coe]
    omega
  · rw [if_neg hx]
    simp only [Int.ofNat_eq_coe]
    omega

/-- The magnitudes of the amounts of some of the contributions add up to no
more than those of all of them. -/
theorem magnitude_filter_le (p : Donation JSInteger → Bool) (ds : List (Donation JSInteger)) :
    ((ds.filter p).map (fun d => d.amount.val.natAbs)).sum ≤
      (ds.map (fun d => d.amount.val.natAbs)).sum := by
  induction ds with
  | nil => simp
  | cons d rest ih =>
    by_cases hp : p d = true
    · simp only [List.filter_cons, hp, if_true, List.map_cons, List.sum_cons]
      omega
    · simp only [List.filter_cons, hp, List.map_cons, List.sum_cons]
      simp only [Bool.false_eq_true, if_false]
      omega

/-- While the magnitudes stay within `2 ^ 53`, adding amounts from left to right
with the addition of JavaScript numbers gives the exact sum. -/
theorem foldl_add_exact (l : List JSInteger) (acc : JSInteger)
    (h : acc.val.natAbs + (l.map (fun a => a.val.natAbs)).sum ≤ 2 ^ 53) :
    (l.foldl (fun x y => x + y) acc).val = acc.val + (l.map JSInteger.val).sum := by
  induction l generalizing acc with
  | nil => simp
  | cons a rest ih =>
    simp only [List.map_cons, List.sum_cons] at h
    have habs : (acc.val + a.val).natAbs ≤ acc.val.natAbs + a.val.natAbs :=
      Int.natAbs_add_le _ _
    have hstep : (acc + a).val = acc.val + a.val := by
      show roundInt53 (acc.val + a.val) = acc.val + a.val
      exact roundInt53_of_le _ (by omega)
    have := ih (acc + a) (by rw [hstep]; omega)
    simp only [List.foldl_cons, List.map_cons, List.sum_cons]
    rw [this, hstep]
    ring

theorem totalOn_exact (k : String) (ds : List (Donation JSInteger))
    (h : (ds.map (fun d => d.amount.val.natAbs)).sum ≤ 2 ^ 53) :
    (totalOn k ds).val =
      ((ds.filter (fun d => splitT0 d.date = k)).map (fun d => d.amount.val)).sum := by
  unfold totalOn
  have hle := magnitude_filter_le (fun d => splitT0 d.date = k) ds
  have := foldl_add_exact ((ds.filter (fun d => splitT0 d.date = k)).map Donation.amount) 0 (by
    rw [List.map_map]
    show (0 : Int).natAbs + _ ≤ _
    simp only [Int.natAbs_zero, Nat.zero_add]
    exact le_trans hle h)
  rw [this, List.map_map]
  show (0 : Int) + _ = _
  rw [zero_add]
  rfl

theorem JSInteger.ext_val (a b : JSInteger) (h : a.val = b.val) : a = b := by
  cases a
  cases b
  simp only [JSInteger.mk.injEq]
  exact h

/-- C12 (amended): for contributions whose amounts are integers with magnitudes
that add up to at most `2 ^ 53`, so that every sum the code forms is exact in
the arithmetic of JavaScript numbers, `prepareChartData` at the same clock
readings returns the same labels and the same values for the list and for
every permutation of it. -/
theorem prepareChartData_perm_exact (toLabel : String → String) (endNow startNow : Int)
    (donations permuted : List (Donation JSInteger)) (hperm : donations.Perm permuted)
    (hbound : (donations.map (fun d => d.amount.val.natAbs)).sum ≤ 2 ^ 53) :
    prepareChartData toLabel endNow startNow donations =
      prepareChartData toLabel endNow startNow permuted := by
  have hbound2 : (permuted.map (fun d => d.amount.val.natAbs)).sum ≤ 2 ^ 53 := by
    rw [← (hperm.map _).sum_eq]
    exact hbound
  obtain ⟨hl, hv⟩ := prepareChartData_eq toLabel endNow startNow donations
  obtain ⟨hl2, hv2⟩ := prepareChartData_eq toLabel endNow startNow permuted
  have htotal : ∀ k, totalOn k donations = totalOn k permuted := by
    intro k
    apply JSInteger.ext_val
    rw [totalOn_exact k donations hbound, totalOn_exact k permuted hbound2]
    exact ((hperm.filter _).map _).sum_eq
  have hlabels : (prepareChartData toLabel endNow startNow donations).labels =
      (prepareChartData toLabel endNow startNow permuted).labels := by rw [hl, hl2]
  have hvalues : (prepareChartData toLabel endNow startNow donations).values =
      (prepareChartData toLabel endNow startNow permuted).values := by
    rw [hv, hv2]
    apply List.map_congr_left
    intro k _
    rw [htotal k]
  cases hx : prepareChartData toLabel endNow startNow donations with
  | mk l1 v1 =>
    cases hy : prepareChartData toLabel endNow startNow permuted with
    | mk l2 v2 =>
      rw [hx, hy] at hlabels hvalues
      simp only at hlabels hvalues
      rw [hlabels, hvalues]

set_option maxRecDepth 100000 in
theorem prepareChartData_perm_exact_witness :
    prepareChartData id noon noon
        [manual (⟨100⟩ : JSInteger) "2024-03-15", manual ⟨50⟩ "2024-03-14",
         manual ⟨7⟩ "2024-03-15T08:00:00"] =
      prepareChartData id noon noon
        [manual ⟨7⟩ "2024-03-15T08:00:00", manual (⟨100⟩ : JSInteger) "2024-03-15",
         manual ⟨50⟩ "2024-03-14"] :=
  prepareChartData_perm_exact id noon noon _ _ (by decide) (by decide)

set_option maxRecDepth 100000 in
/-- C12 (as stated, refuted): the integer amounts `2 ^ 53`, 1 and 1, all dated
today, give the total 9007199254740992 in this order and 9007199254740994 in
the order 1, 1, `2 ^ 53`: the sum of `2 ^ 53` and 1 is rounded back to
`2 ^ 53`. -/
theorem prepareChartData_order_matters :
    [manual (⟨9007199254740992⟩ : JSInteger) "2024-03-15", manual ⟨1⟩ "2024-03-15",
      manual ⟨1⟩ "2024-03-15"].Perm
      [manual ⟨1⟩ "2024-03-15", manual ⟨1⟩ "2024-03-15",
       manual ⟨9007199254740992⟩ "2024-03-15"] ∧
    (9007199254740992 : Int) = 2 ^ 53 ∧
    (prepareChartData id noon noon
      [manual (⟨9007199254740992⟩ : JSInteger) "2024-03-15", manual ⟨1⟩ "2024-03-15",
       manual ⟨1⟩ "2024-03-15"]).values =
      List.replicate 29 (some ⟨0⟩) ++ [some ⟨9007199254740992⟩] ∧
    (prepareChartData id noon noon
      [manual (⟨1⟩ : JSInteger) "2024-03-15", manual ⟨1⟩ "2024-03-15",
       manual ⟨9007199254740992⟩ "2024-03-15"]).values =
      List.replicate 29 (some ⟨0⟩) ++ [some ⟨9007199254740994⟩] := by
  decide

end NazrulMaqam
